import Mathlib

/-!
Verification of the simulation core of a small 3D game engine: a physics
world of AABB bodies, a scene object store with a parallel body list and
single-level undo, an editor picking/drag controller, and a procedural
terrain generator.  Floating-point values are modelled exactly as rationals;
32-bit integer arithmetic in the noise hash is modelled by explicit
wrap-around on naturals below 2^32.  External library calls (raylib) appear
either as faithful translations of their documented semantics
(CheckCollisionBoxes) or as explicit input parameters (ray-box collision
results fed to the editor update).
-/

namespace GameEngine

/-- Vector of three rationals, modelling a raylib Vector3 / Go [3]float32. -/
structure Vec3 where
  x : ℚ
  y : ℚ
  z : ℚ
deriving DecidableEq, Repr

instance : Inhabited Vec3 := ⟨⟨0, 0, 0⟩⟩

/-- Coordinate access by axis index 0/1/2 (X/Y/Z), as Go array indexing. -/
def Vec3.coord : Vec3 → Nat → ℚ
  | v, 0 => v.x
  | v, 1 => v.y
  | v, 2 => v.z
  | _, _ => 0

/-- Coordinate update by axis index 0/1/2 (X/Y/Z), as Go array assignment. -/
def Vec3.setCoord : Vec3 → Nat → ℚ → Vec3
  | v, 0, q => { v with x := q }
  | v, 1, q => { v with y := q }
  | v, 2, q => { v with z := q }
  | v, _, _ => v

/-- Body (physics/body.go): position, velocity, AABB scale, mass, static flag. -/
structure Body where
  Position : Vec3
  Velocity : Vec3
  Scale : Vec3
  Mass : ℚ
  Static : Bool
deriving DecidableEq, Repr

instance : Inhabited Body := ⟨⟨default, default, default, 0, false⟩⟩

/-- NewBody (physics/body.go): velocity starts at zero; non-positive mass becomes 1. -/
def NewBody (position scale : Vec3) (mass : ℚ) (static : Bool) : Body :=
  { Position := position
    Velocity := ⟨0, 0, 0⟩
    Scale := scale
    Mass := if mass ≤ 0 then 1 else mass
    Static := static }

/-- Axis-aligned bounding box with min and max corners (raylib BoundingBox). -/
structure BoundingBox where
  min : Vec3
  max : Vec3
deriving DecidableEq, Repr

/-- bodyAABB (physics/world.go): box from position ± half extents; zero scale
components are treated as 1. -/
def bodyAABB (b : Body) : BoundingBox :=
  let sx := if b.Scale.x = 0 then 1 else b.Scale.x
  let sy := if b.Scale.y = 0 then 1 else b.Scale.y
  let sz := if b.Scale.z = 0 then 1 else b.Scale.z
  { min := ⟨b.Position.x - sx * (1/2), b.Position.y - sy * (1/2), b.Position.z - sz * (1/2)⟩
    max := ⟨b.Position.x + sx * (1/2), b.Position.y + sy * (1/2), b.Position.z + sz * (1/2)⟩ }

/-- CheckCollisionBoxes, modelling raylib's implementation: inclusive interval
overlap on all three axes. -/
def checkCollisionBoxes (a b : BoundingBox) : Bool :=
  decide ((a.max.x ≥ b.min.x ∧ a.min.x ≤ b.max.x) ∧
          (a.max.y ≥ b.min.y ∧ a.min.y ≤ b.max.y) ∧
          (a.max.z ≥ b.min.z ∧ a.min.z ≤ b.max.z))

/-- penetrationAxis (physics/world.go): overlap depth and axis index (0=X, 1=Y,
2=Z) of the minimum positive overlap; (0, -1) when some axis does not overlap. -/
def penetrationAxis (a b : BoundingBox) : ℚ × Int :=
  let overlapX := min a.max.x b.max.x - max a.min.x b.min.x
  let overlapY := min a.max.y b.max.y - max a.min.y b.min.y
  let overlapZ := min a.max.z b.max.z - max a.min.z b.min.z
  if overlapX ≤ 0 ∨ overlapY ≤ 0 ∨ overlapZ ≤ 0 then (0, -1)
  else
    let p1 := if overlapY < overlapX then (overlapY, (1 : Int)) else (overlapX, (0 : Int))
    if overlapZ < p1.1 then (overlapZ, (2 : Int)) else p1

/-- Collision resolution for one (i, j) pair, translated from the inner loop of
Step (physics/world.go lines 119-177): skip if the boxes do not collide or no
axis has positive overlap, otherwise push the two bodies along the minimum
penetration axis (a static body gets zero movement in the branch that looked at
it first) and zero the moved axis velocity of each non-static body. -/
def resolvePair (bi bj : Body) : Body × Body :=
  if ¬ checkCollisionBoxes (bodyAABB bi) (bodyAABB bj) then (bi, bj)
  else
    let p := penetrationAxis (bodyAABB bi) (bodyAABB bj)
    let depth := p.1
    let axis := p.2
    if axis < 0 then (bi, bj)
    else
      let totalMass0 := bi.Mass + bj.Mass
      let totalMass1 := if bi.Static then bj.Mass else totalMass0
      let totalMass := if bj.Static then bi.Mass else totalMass1
      let moveI := if bi.Static then 0
                   else if bj.Static then -depth
                   else -depth * (bj.Mass / totalMass)
      let moveJ := if bi.Static then depth
                   else if bj.Static then 0
                   else depth * (bi.Mass / totalMass)
      let k := axis.toNat
      let bi' := { bi with
        Position := bi.Position.setCoord k (bi.Position.coord k + moveI)
        Velocity := if bi.Static then bi.Velocity else bi.Velocity.setCoord k 0 }
      let bj' := { bj with
        Position := bj.Position.setCoord k (bj.Position.coord k + moveJ)
        Velocity := if bj.Static then bj.Velocity else bj.Velocity.setCoord k 0 }
      (bi', bj')

/-- Apply resolvePair to the bodies at indices i and j of the list, writing the
results back in place (Go mutates through pointers). -/
def resolveAt (bs : List Body) (i j : Nat) : List Body :=
  match bs[i]?, bs[j]? with
  | some bi, some bj =>
      let r := resolvePair bi bj
      (bs.set i r.1).set j r.2
  | _, _ => bs

/-- World (physics/world.go): gravity vector and body list. -/
structure World where
  Gravity : Vec3
  Bodies : List Body
deriving DecidableEq, Repr

/-- NewWorld: default gravity (0, -9.8, 0), no bodies. -/
def NewWorld : World := { Gravity := ⟨0, -49/5, 0⟩, Bodies := [] }

/-- SetGravity (physics/world.go). -/
def World.SetGravity (w : World) (g : Vec3) : World := { w with Gravity := g }

/-- AddBody (physics/world.go): append, preserving order. -/
def World.AddBody (w : World) (b : Body) : World := { w with Bodies := w.Bodies ++ [b] }

/-- Gravity application and integration for one dynamic body (Step lines 103-113):
velocity += gravity*dt then position += velocity*dt. Static bodies are skipped. -/
def integrateBody (g : Vec3) (dt : ℚ) (b : Body) : Body :=
  if b.Static then b
  else
    let v : Vec3 := ⟨b.Velocity.x + g.x * dt, b.Velocity.y + g.y * dt, b.Velocity.z + g.z * dt⟩
    { b with
      Velocity := v
      Position := ⟨b.Position.x + v.x * dt, b.Position.y + v.y * dt, b.Position.z + v.z * dt⟩ }

/-- Step (physics/world.go): integrate all dynamic bodies, then resolve every
ordered pair (i, j), i < j, in order, each resolution seeing the current
(possibly already moved) bodies. -/
def World.Step (w : World) (dt : ℚ) : World :=
  let integrated := w.Bodies.map (integrateBody w.Gravity dt)
  let n := integrated.length
  let resolved := (List.range n).foldl
    (fun bs i => (List.range' (i + 1) (n - (i + 1))).foldl (fun bs2 j => resolveAt bs2 i j) bs)
    integrated
  { w with Bodies := resolved }

/-- ObjectInstance (scene.go): one scene entity. physics = none or some true
means simulated; some false means static. Zero color means no tint set. -/
structure ObjectInstance where
  type : String
  position : Vec3
  scale : Vec3
  physics : Option Bool
  texture : String
  color : Vec3
  name : String
  motion : String
deriving DecidableEq, Repr

/-- The Go zero value of ObjectInstance, used by composite literals that omit fields. -/
instance : Inhabited ObjectInstance :=
  ⟨⟨"", default, default, none, "", default, "", ""⟩⟩

/-- undoRecord (scene.go): one level of undo, either a count of appended objects
or the list of deleted objects. -/
structure undoRecord where
  addCount : Int
  deletedObjs : List ObjectInstance
deriving DecidableEq, Repr

/-- Scene (scene.go): the simulation-relevant state. Rendering-only fields
(skybox, textures, camera position, view awareness) are omitted except for the
camera target, which FocusOnSelected mutates. -/
structure Scene where
  objects : List ObjectInstance
  physicsWorld : World
  selectedIndex : Int
  dragging : Bool
  dragMode : Int
  dragStartObjY : ℚ
  lastMouseY : Int
  dragOffsetX : ℚ
  dragOffsetZ : ℚ
  lastUndo : Option undoRecord
  cameraTarget : Vec3
deriving DecidableEq, Repr

/-- Shorthand for the physics world's body list. -/
def Scene.bodies (s : Scene) : List Body := s.physicsWorld.Bodies

/-- New (scene.go) with no scene file present: empty object list, fresh physics
world, no selection. -/
def Scene.new : Scene :=
  { objects := []
    physicsWorld := NewWorld
    selectedIndex := -1
    dragging := false
    dragMode := 0
    dragStartObjY := 0
    lastMouseY := 0
    dragOffsetX := 0
    dragOffsetZ := 0
    lastUndo := none
    cameraTarget := ⟨0, 0, 0⟩ }

/-- planeDefaultScaleY (scene.go): thin slab height for plane primitives. -/
def planeDefaultScaleY : ℚ := 1/10

/-- yDragSensitivity (scene.go): world units per pixel of vertical mouse delta. -/
def yDragSensitivity : ℚ := 3/200

/-- AddObject (scene.go): append an object to the scene. -/
def Scene.AddObject (s : Scene) (obj : ObjectInstance) : Scene :=
  { s with objects := s.objects ++ [obj] }

/-- applyPlaneDefaultScale (scene.go): planes with Y scale 1 get Y scale 0.1. -/
def applyPlaneDefaultScale (typ : String) (scale : Vec3) : Vec3 :=
  if typ = "plane" ∧ scale.y = 1 then { scale with y := planeDefaultScaleY } else scale

/-- AddPrimitive (scene.go): append a primitive with type, position, scale. -/
def Scene.AddPrimitive (s : Scene) (typ : String) (position scale : Vec3) : Scene :=
  s.AddObject ({ (default : ObjectInstance) with
    type := typ, position := position, scale := applyPlaneDefaultScale typ scale })

/-- AddPrimitiveWithPhysics (scene.go): append a primitive with an explicit
physics flag and optional color. -/
def Scene.AddPrimitiveWithPhysics (s : Scene) (typ : String) (position scale : Vec3)
    (physics : Bool) (color : Option Vec3) : Scene :=
  let obj : ObjectInstance := { (default : ObjectInstance) with
    type := typ, position := position, scale := applyPlaneDefaultScale typ scale
    physics := some physics }
  let obj := match color with
    | some c => { obj with color := c }
    | none => obj
  s.AddObject obj

/-- physicsEnabled (scene.go): nil or true means simulated; false means off. -/
def physicsEnabled (obj : ObjectInstance) : Bool :=
  match obj.physics with
  | none => true
  | some b => b

/-- scaleForPhysics (scene.go): zero scale components replaced by 1. -/
def scaleForPhysics (v : Vec3) : Vec3 :=
  ⟨if v.x = 0 then 1 else v.x, if v.y = 0 then 1 else v.y, if v.z = 0 then 1 else v.z⟩

/-- scaleForPhysicsBody (scene.go): planes always use Y = 0.1 for the collider. -/
def scaleForPhysicsBody (obj : ObjectInstance) : Vec3 :=
  let sc := scaleForPhysics obj.scale
  if obj.type = "plane" then { sc with y := planeDefaultScaleY } else sc

/-- ensurePhysicsBodies (scene.go): while there are fewer bodies than objects,
append a body built from the first uncovered object (mass 1; static when
physics is disabled). -/
def Scene.ensurePhysicsBodies (s : Scene) : Scene :=
  if h : s.physicsWorld.Bodies.length < s.objects.length then
    let obj := s.objects.get ⟨s.physicsWorld.Bodies.length, h⟩
    let b := NewBody obj.position (scaleForPhysicsBody obj) 1 (!physicsEnabled obj)
    let s' := { s with physicsWorld := s.physicsWorld.AddBody b }
    s'.ensurePhysicsBodies
  else s
termination_by s.objects.length - s.physicsWorld.Bodies.length
decreasing_by
  simp only [World.AddBody, List.length_append, List.length_cons, List.length_nil]
  omega

/-- DeleteObjectAtIndex (scene.go): bounds-checked removal of the object at i
and the body at i (when the body list is long enough), with selection fixup.
The second component is the returned error (none = success). -/
def Scene.DeleteObjectAtIndex (s : Scene) (i : Int) : Scene × Option String :=
  let objs := s.objects
  if i < 0 ∨ (objs.length : Int) ≤ i then
    (s, some ("object index " ++ toString i ++ " out of range (0.." ++
              toString ((objs.length : Int) - 1) ++ ")"))
  else
    let n := i.toNat
    let bodies := s.physicsWorld.Bodies
    ({ s with
        objects := objs.take n ++ objs.drop (n + 1)
        physicsWorld :=
          if i < (bodies.length : Int) then
            { s.physicsWorld with Bodies := bodies.take n ++ bodies.drop (n + 1) }
          else s.physicsWorld
        selectedIndex :=
          if s.selectedIndex = i then -1
          else if i < s.selectedIndex then s.selectedIndex - 1
          else s.selectedIndex }, none)

/-- RecordAdd (scene.go): remember that count objects were appended. -/
def Scene.RecordAdd (s : Scene) (count : Int) : Scene :=
  if count ≤ 0 then s
  else { s with lastUndo := some { addCount := count, deletedObjs := [] } }

/-- RecordDelete (scene.go): remember the deleted objects. -/
def Scene.RecordDelete (s : Scene) (objs : List ObjectInstance) : Scene :=
  if objs.length = 0 then s
  else { s with lastUndo := some { addCount := 0, deletedObjs := objs } }

/-- DeleteSelected (scene.go): record and delete the selected object, or fail
when nothing is selected. The Go code indexes the object list with the
selection unconditionally after the sign check (an out-of-range selection
would panic there); the model reads with a default in that unreachable case. -/
def Scene.DeleteSelected (s : Scene) : Scene × Option String :=
  let idx := s.selectedIndex
  if idx < 0 then (s, some "no object selected (click an object with terminal open)")
  else
    let obj := s.objects.getD idx.toNat default
    (s.RecordDelete [obj]).DeleteObjectAtIndex idx

/-- syncSceneToPhysics (scene.go): copy position/scale/physics flag into the
body at the same index, for indices covered by both lists. -/
def Scene.syncSceneToPhysics (s : Scene) : Scene :=
  { s with physicsWorld :=
    { s.physicsWorld with Bodies := s.physicsWorld.Bodies.mapIdx (fun i b =>
        match s.objects[i]? with
        | some o => { b with
            Position := o.position
            Scale := scaleForPhysicsBody o
            Static := !physicsEnabled o }
        | none => b) } }

/-- Undo (scene.go): revert the last add (truncate, clamp selection) or the
last delete (re-append at the end), then clear the record. -/
def Scene.Undo (s : Scene) : Scene × Option String :=
  match s.lastUndo with
  | none => (s, some "nothing to undo")
  | some r =>
    if 0 < r.addCount then
      let n0 := (s.objects.length : Int) - r.addCount
      let n := if n0 < 0 then 0 else n0
      let s1 := { s with objects := s.objects.take n.toNat }
      let s2 := s1.syncSceneToPhysics
      ({ s2 with
          selectedIndex :=
            if (s2.objects.length : Int) ≤ s2.selectedIndex then
              (s2.objects.length : Int) - 1
            else s2.selectedIndex
          lastUndo := none }, none)
    else
      let s1 := { s with objects := s.objects ++ r.deletedObjs }
      let s2 := s1.syncSceneToPhysics
      ({ s2 with lastUndo := none }, none)

/-- ClearSelection (scene.go). -/
def Scene.ClearSelection (s : Scene) : Scene := { s with selectedIndex := -1 }

/-- SetPhysicsForIndex (scene.go): bounds-checked physics flag update. -/
def Scene.SetPhysicsForIndex (s : Scene) (index : Int) (enabled : Bool) :
    Scene × Option String :=
  if index < 0 ∨ (s.objects.length : Int) ≤ index then
    (s, some ("object index " ++ toString index ++ " out of range (0.." ++
              toString ((s.objects.length : Int) - 1) ++ ")"))
  else
    let n := index.toNat
    let obj' := { s.objects.getD n default with physics := some enabled }
    ({ s with objects := s.objects.set n obj' }, none)

/-- SetSelectedPhysics (scene.go). -/
def Scene.SetSelectedPhysics (s : Scene) (enabled : Bool) : Scene × Option String :=
  if s.selectedIndex < 0 then
    (s, some "no object selected (click an object with terminal open)")
  else s.SetPhysicsForIndex s.selectedIndex enabled

/-- SetSelectedTexture (scene.go). -/
def Scene.SetSelectedTexture (s : Scene) (path : String) : Scene × Option String :=
  let idx := s.selectedIndex
  if idx < 0 then (s, some "no object selected (click an object with terminal open)")
  else
    let n := idx.toNat
    let obj' := { s.objects.getD n default with texture := path }
    ({ s with objects := s.objects.set n obj' }, none)

/-- SetSelectedColor (scene.go). -/
def Scene.SetSelectedColor (s : Scene) (c : Vec3) : Scene × Option String :=
  let idx := s.selectedIndex
  if idx < 0 then (s, some "no object selected")
  else
    let n := idx.toNat
    let obj' := { s.objects.getD n default with color := c }
    ({ s with objects := s.objects.set n obj' }, none)

/-- SetSelectedName (scene.go). -/
def Scene.SetSelectedName (s : Scene) (name : String) : Scene × Option String :=
  let idx := s.selectedIndex
  if idx < 0 then (s, some "no object selected")
  else
    let n := idx.toNat
    let obj' := { s.objects.getD n default with name := name }
    ({ s with objects := s.objects.set n obj' }, none)

/-- SetSelectedMotion (scene.go). -/
def Scene.SetSelectedMotion (s : Scene) (motion : String) : Scene × Option String :=
  let idx := s.selectedIndex
  if idx < 0 then (s, some "no object selected")
  else
    let n := idx.toNat
    let obj' := { s.objects.getD n default with motion := motion }
    ({ s with objects := s.objects.set n obj' }, none)

/-- DuplicateSelected (scene.go): clone the selected object n times (capped at
20), each clone offset by offset*(i+1) with the name cleared, then sync bodies.
Returns the scene, the count duplicated, and the error. -/
def Scene.DuplicateSelected (s : Scene) (n : Int) (offset : Vec3) :
    Scene × Int × Option String :=
  let idx := s.selectedIndex
  if idx < 0 then (s, 0, some "no object selected")
  else if n ≤ 0 then (s, 0, none)
  else
    let n := if 20 < n then 20 else n
    let obj := s.objects.getD idx.toNat default
    let clones := (List.range n.toNat).map (fun i =>
      { obj with
        position := ⟨obj.position.x + offset.x * (i + 1),
                     obj.position.y + offset.y * (i + 1),
                     obj.position.z + offset.z * (i + 1)⟩
        name := "" })
    let s1 := { s with objects := s.objects ++ clones }
    (s1.syncSceneToPhysics, n, none)

/-- FocusOnSelected (scene.go): point the camera target at the selected object. -/
def Scene.FocusOnSelected (s : Scene) : Scene × Option String :=
  let idx := s.selectedIndex
  if idx < 0 then (s, some "no object selected")
  else
    let obj := s.objects.getD idx.toNat default
    ({ s with cameraTarget := obj.position }, none)

/-- NewScene (scene.go): clear all objects and physics bodies. The selection
index is left untouched by the Go code. The immediate save to disk is external
I/O and is not modelled. -/
def Scene.NewScene (s : Scene) : Scene :=
  { s with objects := [], physicsWorld := { s.physicsWorld with Bodies := [] } }

/-- SetGravity (scene.go): forwards to the physics world. -/
def Scene.SetGravity (s : Scene) (g : Vec3) : Scene :=
  { s with physicsWorld := s.physicsWorld.SetGravity g }

/-- Ray with origin and direction (raylib Ray). -/
structure Ray where
  Position : Vec3
  Direction : Vec3
deriving DecidableEq, Repr

/-- Result of a ray-box test (raylib RayCollision). Produced by the external
GetRayCollisionBox, so UpdateEditor receives these as inputs. -/
structure RayCollision where
  Hit : Bool
  Distance : ℚ
  Point : Vec3
  Normal : Vec3
deriving DecidableEq, Repr

instance : Inhabited RayCollision := ⟨⟨false, 0, default, default⟩⟩

/-- rayPlaneY (scene.go): intersection of a ray with the horizontal plane
Y = planeY; none when the ray is near-parallel or the hit is behind the origin. -/
def rayPlaneY (ray : Ray) (planeY : ℚ) : Option Vec3 :=
  let dy := ray.Direction.y
  if -(1/1000000) < dy ∧ dy < 1/1000000 then none
  else
    let t := (planeY - ray.Position.y) / dy
    if t < 0 then none
    else some ⟨ray.Position.x + t * ray.Direction.x,
               ray.Position.y + t * ray.Direction.y,
               ray.Position.z + t * ray.Direction.z⟩

/-- The box-pick loop of UpdateEditor (scene.go lines 1300-1311): scan object
indices 0..n-1, keeping the hit with the smallest positive distance below the
running best, which starts at the sentinel 1e30. hits i is the external
GetRayCollisionBox result for the mouse ray against object i's AABB.
Returns (bestIdx, bestDist, bestHit). -/
def pickBest (hits : Nat → RayCollision) (n : Nat) : Int × ℚ × RayCollision :=
  (List.range n).foldl
    (fun acc i =>
      let h := hits i
      if h.Hit = true ∧ 0 < h.Distance ∧ h.Distance < acc.2.1
      then ((i : Int), h.Distance, h)
      else acc)
    (-1, (10 : ℚ) ^ 30, default)

/-- Per-frame external inputs consumed by UpdateEditor: cursor state, the
reserved bottom bar height, screen height, mouse position and button edges, the
mouse ray, and the ray-box collision results for each object index. -/
structure EditorInput where
  cursorVisible : Bool
  terminalBarHeight : Int
  screenHeight : Int
  mouseY : Int
  mousePressed : Bool
  mouseReleased : Bool
  ray : Ray
  hits : Nat → RayCollision

/-- UpdateEditor (scene.go lines 1264-1342): cancel when the cursor is hidden,
the scene is empty, the mouse is in the bottom bar, or the button was released;
otherwise continue a Y drag, handle a fresh press (pick plus drag-mode choice
from the hit normal), or continue an XZ drag. -/
def Scene.UpdateEditor (s : Scene) (inp : EditorInput) : Scene :=
  if !inp.cursorVisible then { s with dragging := false, dragMode := 0 }
  else if s.objects.length = 0 then s
  else if inp.screenHeight - inp.terminalBarHeight ≤ inp.mouseY then
    { s with dragging := false, dragMode := 0 }
  else if inp.mouseReleased then { s with dragging := false, dragMode := 0 }
  else if s.dragMode = 2 ∧ 0 ≤ s.selectedIndex ∧ s.selectedIndex < (s.objects.length : Int) then
    let nSel := s.selectedIndex.toNat
    let obj := s.objects.getD nSel default
    let deltaPixels := inp.mouseY - s.lastMouseY
    let pos' := { obj.position with y := s.dragStartObjY - (deltaPixels : ℚ) * yDragSensitivity }
    { s with objects := s.objects.set nSel { obj with position := pos' } }
  else if inp.mousePressed then
    let r := pickBest inp.hits s.objects.length
    let bestIdx := r.1
    let bestHit := r.2.2
    let s1 := { s with selectedIndex := bestIdx, dragging := decide (0 ≤ bestIdx) }
    if 0 ≤ bestIdx then
      let obj := s.objects.getD bestIdx.toNat default
      if 99/100 < bestHit.Normal.y ∨ bestHit.Normal.y < -(99/100) then
        { s1 with dragMode := 1
                  dragOffsetX := bestHit.Point.x - obj.position.x
                  dragOffsetZ := bestHit.Point.z - obj.position.z }
      else
        { s1 with dragMode := 2
                  dragStartObjY := obj.position.y
                  lastMouseY := inp.mouseY }
    else { s1 with dragMode := 0 }
  else if s.dragMode = 1 ∧ s.dragging = true ∧ 0 ≤ s.selectedIndex ∧
          s.selectedIndex < (s.objects.length : Int) then
    let nSel := s.selectedIndex.toNat
    let obj := s.objects.getD nSel default
    match rayPlaneY inp.ray obj.position.y with
    | some hit =>
        let pos' := { obj.position with x := hit.x - s.dragOffsetX, z := hit.z - s.dragOffsetZ }
        { s with objects := s.objects.set nSel { obj with position := pos' } }
    | none => s
  else s

/-- HeightMapOptions (mapgen.go). -/
structure HeightMapOptions where
  Width : Int
  Depth : Int
  TileSize : ℚ
  HeightScale : ℚ
  Seed : Int
  Octaves : Int
  Frequency : ℚ
  Lacunarity : ℚ
  Gain : ℚ
deriving DecidableEq, Repr

/-- DefaultHeightMapOptions (mapgen.go). -/
def DefaultHeightMapOptions : HeightMapOptions :=
  { Width := 32, Depth := 32, TileSize := 1, HeightScale := 3,
    Seed := 0, Octaves := 4, Frequency := 2/25, Lacunarity := 2, Gain := 1/2 }

/-- Two's-complement 32-bit representative of an integer, in [0, 2^32). -/
def u32 (n : Int) : Nat := (n % (2 ^ 32 : Int)).toNat

/-- Wrapping 32-bit multiplication on representatives. -/
def mul32 (a b : Nat) : Nat := a * b % 2 ^ 32

/-- Arithmetic (sign-extending) right shift on a 32-bit representative. -/
def asr32 (n k : Nat) : Nat :=
  if n < 2 ^ 31 then n / 2 ^ k else n / 2 ^ k + (2 ^ 32 - 2 ^ 32 / 2 ^ k)

/-- hash2D (mapgen.go): integer lattice coordinates to a deterministic value in
[0, 1], via wrapping int32 arithmetic, xor-shifts and a final mask by 0x7fffffff
(equal to reduction mod 2^31). -/
def hash2D (x y seed : Int) : ℚ :=
  let n0 := u32 (x * 374761393 + y * 668265263 + seed * 362437)
  let n1 := mul32 (Nat.xor n0 (asr32 n0 13)) 1274126177
  let n2 := Nat.xor n1 (asr32 n1 16)
  ((n2 % 2 ^ 31 : Nat) : ℚ) * (1 / 2147483647)

/-- lerp (mapgen.go). -/
def lerp (a b t : ℚ) : ℚ := a + (b - a) * t

/-- smoothStep (mapgen.go): clamped cubic easing 3t^2 - 2t^3. -/
def smoothStep (t : ℚ) : ℚ :=
  if t ≤ 0 then 0 else if 1 ≤ t then 1 else t * t * (3 - 2 * t)

/-- valueNoise2D (mapgen.go): smoothly interpolated hash lattice noise. The Go
code converts the floor to int32; for the in-range coordinates the generator
produces this equals the mathematical floor, and hash2D wraps to 32 bits. -/
def valueNoise2D (x y : ℚ) (seed : Int) : ℚ :=
  let x0 : Int := ⌊x⌋
  let y0 : Int := ⌊y⌋
  let tx := x - (x0 : ℚ)
  let ty := y - (y0 : ℚ)
  let v00 := hash2D x0 y0 seed
  let v10 := hash2D (x0 + 1) y0 seed
  let v01 := hash2D x0 (y0 + 1) seed
  let v11 := hash2D (x0 + 1) (y0 + 1) seed
  let sx := smoothStep tx
  let sy := smoothStep ty
  lerp (lerp v00 v10 sx) (lerp v01 v11 sx) sy

/-- fractalValueNoise2D (mapgen.go): octave loop accumulating amplitude-weighted
noise; the per-octave seed is int32(seed) + int32(i), which hash2D's 32-bit
wrap makes equal to wrapping seed + i. -/
def fractalValueNoise2D (x y : ℚ) (seed : Int) (octaves : Int)
    (lacunarity gain : ℚ) : ℚ :=
  let acc := (List.range octaves.toNat).foldl
    (fun (acc : ℚ × ℚ × ℚ × ℚ) i =>
      let nval := valueNoise2D (x * acc.2.2.2) (y * acc.2.2.2) (seed + i)
      (acc.1 + nval * acc.2.2.1, acc.2.1 + acc.2.2.1,
       acc.2.2.1 * gain, acc.2.2.2 * lacunarity))
    (0, 0, 1, 1)
  if acc.2.1 = 0 then 0 else acc.1 / acc.2.1

/-- GenerateHeightMapCubes (mapgen.go): defaulting of non-positive parameters,
seed resolution (a zero Seed is replaced by the time-derived value, passed here
explicitly as now), then one static cube per tile with noise-derived height.
isFinite is identically true over the rationals, so only the height ≤ 0 guard
of the Go code remains. -/
def GenerateHeightMapCubes (now : Int) (opts : HeightMapOptions) : List ObjectInstance :=
  if opts.Width ≤ 0 ∨ opts.Depth ≤ 0 then []
  else
    let tileSize := if opts.TileSize ≤ 0 then 1 else opts.TileSize
    let heightScale := if opts.HeightScale ≤ 0 then 1 else opts.HeightScale
    let octaves := if opts.Octaves ≤ 0 then 1 else opts.Octaves
    let frequency := if opts.Frequency ≤ 0 then 1/20 else opts.Frequency
    let lacunarity := if opts.Lacunarity ≤ 0 then 2 else opts.Lacunarity
    let gain := if opts.Gain ≤ 0 then 1/2 else opts.Gain
    let seed := if opts.Seed = 0 then now else opts.Seed
    let halfTile := tileSize * (1/2)
    let extentX := (opts.Width : ℚ) * tileSize * (1/2)
    let extentZ := (opts.Depth : ℚ) * tileSize * (1/2)
    let startX := -extentX + halfTile
    let startZ := -extentZ + halfTile
    (List.range opts.Depth.toNat).flatMap (fun z =>
      (List.range opts.Width.toNat).map (fun x =>
        let h := fractalValueNoise2D ((x : ℚ) * frequency) ((z : ℚ) * frequency)
          seed octaves lacunarity gain
        let minHeight : ℚ := 3/20
        let height0 := minHeight + h * (heightScale - minHeight)
        let height := if height0 ≤ 0 then minHeight else height0
        let worldX := startX + (x : ℚ) * tileSize
        let worldZ := startZ + (z : ℚ) * tileSize
        let worldY := height * (1/2)
        { type := "cube"
          position := ⟨worldX, worldY, worldZ⟩
          scale := ⟨tileSize, height, tileSize⟩
          physics := some false
          texture := ""
          color := ⟨0, 0, 0⟩
          name := ""
          motion := "" }))

/-- The add and delete operations of the index-pairing claim, plus the
per-frame body synchronisation ensurePhysicsBodies that Update runs. All
delete variants (DeleteSelected, DeleteRandom, DeleteByName, the visible-set
deletes) remove via DeleteObjectAtIndex at some index, so deleteAt i with i
arbitrary covers them. -/
inductive AddDelOp where
  | addObject (obj : ObjectInstance)
  | addPrimitive (typ : String) (position scale : Vec3)
  | addPrimitiveWithPhysics (typ : String) (position scale : Vec3)
      (physics : Bool) (color : Option Vec3)
  | ensureBodies
  | deleteAt (i : Int)

/-- Interpretation of one add/delete operation on a scene. -/
def applyAddDelOp (s : Scene) : AddDelOp → Scene
  | .addObject obj => s.AddObject obj
  | .addPrimitive typ p sc => s.AddPrimitive typ p sc
  | .addPrimitiveWithPhysics typ p sc ph c => s.AddPrimitiveWithPhysics typ p sc ph c
  | .ensureBodies => s.ensurePhysicsBodies
  | .deleteAt i => (s.DeleteObjectAtIndex i).1

/-- Run a sequence of add/delete operations from the left. -/
def runAddDelOps (ops : List AddDelOp) (s : Scene) : Scene :=
  ops.foldl applyAddDelOp s

/-- The body at an index corresponds to the object at the same index: it was
created from it (position, collider scale, static flag) by ensurePhysicsBodies. -/
def bodyMatches (b : Body) (o : ObjectInstance) : Prop :=
  b.Position = o.position ∧ b.Scale = scaleForPhysicsBody o ∧
    b.Static = !physicsEnabled o

/-- Pairing invariant: the body list is no longer than the object list and each
body corresponds to the object at its index. -/
def Paired (s : Scene) : Prop :=
  s.bodies.length ≤ s.objects.length ∧
  ∀ (j : Nat) b o, s.bodies[j]? = some b → s.objects[j]? = some o → bodyMatches b o

/-- Fully synchronised: paired and of equal length. -/
def Synced (s : Scene) : Prop := Paired s ∧ s.bodies.length = s.objects.length

/-- The public scene operations of the selection-validity claim: adds, deletes,
selection operations, undo, duplicate, new-scene, editor updates.
selectVisible idx models SelectVisibleByPosition and its variants: they assign
the Index field of a VisibleObject produced by ObjectsInView, which only emits
indices of the current object list, so the model guards on idx being in
range (the out-of-range case corresponds to "no objects in view", an error). -/
inductive SceneOp where
  | addObject (obj : ObjectInstance)
  | addPrimitive (typ : String) (position scale : Vec3)
  | addPrimitiveWithPhysics (typ : String) (position scale : Vec3)
      (physics : Bool) (color : Option Vec3)
  | ensureBodies
  | deleteAt (i : Int)
  | deleteSelected
  | clearSelection
  | selectVisible (idx : Nat)
  | updateEditor (inp : EditorInput)
  | undo
  | duplicateSelected (n : Int) (offset : Vec3)
  | newScene

/-- Interpretation of one public scene operation. -/
def applySceneOp (s : Scene) : SceneOp → Scene
  | .addObject obj => s.AddObject obj
  | .addPrimitive typ p sc => s.AddPrimitive typ p sc
  | .addPrimitiveWithPhysics typ p sc ph c => s.AddPrimitiveWithPhysics typ p sc ph c
  | .ensureBodies => s.ensurePhysicsBodies
  | .deleteAt i => (s.DeleteObjectAtIndex i).1
  | .deleteSelected => s.DeleteSelected.1
  | .clearSelection => s.ClearSelection
  | .selectVisible idx =>
      if idx < s.objects.length then { s with selectedIndex := (idx : Int) } else s
  | .updateEditor inp => s.UpdateEditor inp
  | .undo => s.Undo.1
  | .duplicateSelected n offset => (s.DuplicateSelected n offset).1
  | .newScene => s.NewScene

/-- Run a sequence of public scene operations from the left. -/
def runSceneOps (ops : List SceneOp) (s : Scene) : Scene :=
  ops.foldl applySceneOp s

/-- Recogniser for the newScene operation. -/
def SceneOp.isNewScene : SceneOp → Bool
  | .newScene => true
  | _ => false

/-- Selection validity: no selection, or a valid index of the object list. -/
def SelOK (s : Scene) : Prop :=
  s.selectedIndex = -1 ∨
    (0 ≤ s.selectedIndex ∧ s.selectedIndex < (s.objects.length : Int))

instance (s : Scene) : Decidable (SelOK s) := by unfold SelOK; infer_instance

/-- A default cube object, as spawned by the spawn command. -/
def cube0 : ObjectInstance :=
  { (default : ObjectInstance) with type := "cube", scale := ⟨1, 1, 1⟩ }

/-- A unit cube body with physics disabled (static), as built by
ensurePhysicsBodies for an object with physics: false. -/
def staticUnitCube : Body :=
  { Position := ⟨0, 0, 0⟩, Velocity := ⟨0, 0, 0⟩, Scale := ⟨1, 1, 1⟩,
    Mass := 1, Static := true }

/-- A world holding two coincident static unit cubes under default gravity. -/
def twoStaticWorld : World :=
  { Gravity := ⟨0, -49/5, 0⟩, Bodies := [staticUnitCube, staticUnitCube] }

/-- A two-object scene with the first object selected, used as a witness input. -/
def sceneW1 : Scene :=
  { Scene.new with
    objects := [cube0, { cube0 with name := "b" }]
    selectedIndex := 0 }

/-- A synchronised two-object two-body scene with the second object selected,
used as a witness input. -/
def sceneW2 : Scene :=
  { Scene.new with
    objects := [cube0, { cube0 with name := "b" }]
    physicsWorld := { NewWorld with Bodies :=
      [NewBody ⟨0, 0, 0⟩ ⟨1, 1, 1⟩ 1 false, NewBody ⟨0, 0, 0⟩ ⟨1, 1, 1⟩ 1 false] }
    selectedIndex := 1 }

/-- A hit that UpdateEditor's pick loop can accept: the ray hits, at a strictly
positive distance below the loop's 1e30 sentinel initial best distance. -/
def HitP (hits : Nat → RayCollision) (i : Nat) : Prop :=
  (hits i).Hit = true ∧ 0 < (hits i).Distance ∧ (hits i).Distance < 10 ^ 30

instance (hits : Nat → RayCollision) (i : Nat) : Decidable (HitP hits i) := by
  unfold HitP
  infer_instance

/-- Conditions under which a frame of UpdateEditor reaches the pointer-down
pick branch: editor active, non-empty scene, mouse above the input bar, no
release edge, no Y drag in progress, and a press edge. -/
def PickFrame (s : Scene) (inp : EditorInput) : Prop :=
  inp.cursorVisible = true ∧ s.objects.length ≠ 0 ∧
  inp.mouseY < inp.screenHeight - inp.terminalBarHeight ∧
  inp.mouseReleased = false ∧
  ¬ (s.dragMode = 2 ∧ 0 ≤ s.selectedIndex ∧ s.selectedIndex < (s.objects.length : Int)) ∧
  inp.mousePressed = true

instance (s : Scene) (inp : EditorInput) : Decidable (PickFrame s inp) := by
  unfold PickFrame
  infer_instance

/-- Conditions under which a frame of UpdateEditor runs the vertical (Y) drag
branch. -/
def VDragFrame (s : Scene) (inp : EditorInput) : Prop :=
  inp.cursorVisible = true ∧ s.objects.length ≠ 0 ∧
  inp.mouseY < inp.screenHeight - inp.terminalBarHeight ∧
  inp.mouseReleased = false ∧
  s.dragMode = 2 ∧ 0 ≤ s.selectedIndex ∧ s.selectedIndex < (s.objects.length : Int)

instance (s : Scene) (inp : EditorInput) : Decidable (VDragFrame s inp) := by
  unfold VDragFrame
  infer_instance

/-- Conditions under which a frame of UpdateEditor runs the horizontal (XZ)
drag branch. -/
def HDragFrame (s : Scene) (inp : EditorInput) : Prop :=
  inp.cursorVisible = true ∧ s.objects.length ≠ 0 ∧
  inp.mouseY < inp.screenHeight - inp.terminalBarHeight ∧
  inp.mouseReleased = false ∧
  ¬ (s.dragMode = 2 ∧ 0 ≤ s.selectedIndex ∧ s.selectedIndex < (s.objects.length : Int)) ∧
  inp.mousePressed = false ∧
  s.dragMode = 1 ∧ s.dragging = true ∧
  0 ≤ s.selectedIndex ∧ s.selectedIndex < (s.objects.length : Int)

instance (s : Scene) (inp : EditorInput) : Decidable (HDragFrame s inp) := by
  unfold HDragFrame
  infer_instance

/-- Witness hits: object 0 is hit at distance 7, every other index at
distance 3 (side face normal). -/
def hitsW6 : Nat → RayCollision
  | 0 => { Hit := true, Distance := 7, Point := ⟨0, 0, 0⟩, Normal := ⟨0, 1, 0⟩ }
  | _ => { Hit := true, Distance := 3, Point := ⟨0, 0, 0⟩, Normal := ⟨1, 0, 0⟩ }

/-- Witness editor input for a pointer-down pick frame. -/
def inpW6 : EditorInput :=
  { cursorVisible := true, terminalBarHeight := 40, screenHeight := 600,
    mouseY := 100, mousePressed := true, mouseReleased := false,
    ray := ⟨⟨0, 10, 0⟩, ⟨0, -1, 0⟩⟩, hits := hitsW6 }

/-- A fresh scene holding two cubes, nothing selected. -/
def sceneW6 : Scene := { Scene.new with objects := [cube0, { cube0 with name := "b" }] }

/-- Hits at exactly the 1e30 sentinel distance: positive-distance hits that the
pick loop nevertheless rejects. -/
def hitsFar : Nat → RayCollision :=
  fun _ => { Hit := true, Distance := 10 ^ 30, Point := ⟨0, 0, 0⟩, Normal := ⟨0, 1, 0⟩ }

/-- A fresh scene holding one cube. -/
def sceneOne : Scene := { Scene.new with objects := [cube0] }

/-- Pointer-down input whose only hit is at distance 1e30. -/
def inpFar : EditorInput :=
  { cursorVisible := true, terminalBarHeight := 40, screenHeight := 600,
    mouseY := 100, mousePressed := true, mouseReleased := false,
    ray := ⟨⟨0, 10, 0⟩, ⟨0, -1, 0⟩⟩, hits := hitsFar }

/-- Scene in the middle of a vertical drag of its only object. -/
def sceneVD : Scene :=
  { Scene.new with
    objects := [cube0]
    selectedIndex := 0
    dragMode := 2
    dragging := true
    dragStartObjY := 5
    lastMouseY := 100 }

/-- Editor input for a held-button vertical drag frame (mouse moved down 30px). -/
def inpVD : EditorInput :=
  { cursorVisible := true, terminalBarHeight := 40, screenHeight := 600,
    mouseY := 130, mousePressed := false, mouseReleased := false,
    ray := ⟨⟨0, 10, 0⟩, ⟨0, -1, 0⟩⟩, hits := fun _ => default }

/-- Scene in the middle of a horizontal drag of its only object. -/
def sceneHD : Scene :=
  { Scene.new with
    objects := [cube0]
    selectedIndex := 0
    dragMode := 1
    dragging := true
    dragOffsetX := 1/4
    dragOffsetZ := 1/8 }

/-- Editor input for a held-button horizontal drag frame. -/
def inpHD : EditorInput :=
  { cursorVisible := true, terminalBarHeight := 40, screenHeight := 600,
    mouseY := 130, mousePressed := false, mouseReleased := false,
    ray := ⟨⟨0, 10, 0⟩, ⟨0, -1, 0⟩⟩, hits := fun _ => default }

/-- Overlapping dynamic unit cubes for the collision-resolution witness: the
second sits half a unit to the right of the first, so the minimum penetration
is 1/2 on the X axis. -/
def bW1 : Body :=
  { Position := ⟨0, 0, 0⟩, Velocity := ⟨1, 0, 0⟩, Scale := ⟨1, 1, 1⟩,
    Mass := 1, Static := false }

/-- The second witness body (heavier). -/
def bW2 : Body :=
  { Position := ⟨1/2, 0, 0⟩, Velocity := ⟨-1, 0, 0⟩, Scale := ⟨1, 1, 1⟩,
    Mass := 3, Static := false }

/-! ## C8: deterministic terrain generation -/

/-- C8: two calls of GenerateHeightMapCubes with identical options and a
non-zero Seed produce identical object lists, whatever the current time is at
each call: the output is a function of the options alone, and the time-derived
seed is only used in place of a zero Seed. -/
theorem generateHeightMapCubes_deterministic (t₁ t₂ : Int) (opts : HeightMapOptions)
    (h : opts.Seed ≠ 0) :
    GenerateHeightMapCubes t₁ opts = GenerateHeightMapCubes t₂ opts := by
  unfold GenerateHeightMapCubes
  simp only [if_neg h]

/-- Witness for C8: the default options with seed 7 generate the same terrain
at two different times. -/
theorem generateHeightMapCubes_deterministic_witness :
    ({ DefaultHeightMapOptions with Seed := 7 } : HeightMapOptions).Seed ≠ 0 ∧
    GenerateHeightMapCubes 0 { DefaultHeightMapOptions with Seed := 7 } =
      GenerateHeightMapCubes 99 { DefaultHeightMapOptions with Seed := 7 } :=
  ⟨by decide, generateHeightMapCubes_deterministic 0 99 _ (by decide)⟩

/-! ## C9: operations on an absent selection fail without mutating -/

/-- C9: with no selection (index -1), every selected-object operation
(DeleteSelected, SetSelectedPhysics, SetSelectedTexture, SetSelectedColor,
SetSelectedName, SetSelectedMotion, DuplicateSelected, FocusOnSelected)
returns an error and leaves the scene - in particular the object list, body
list, selection and undo record - unchanged. -/
theorem noSelection_ops_error_and_preserve (s : Scene) (h : s.selectedIndex = -1) :
    (s.DeleteSelected.1 = s ∧ s.DeleteSelected.2.isSome = true) ∧
    (∀ enabled, (s.SetSelectedPhysics enabled).1 = s ∧
      (s.SetSelectedPhysics enabled).2.isSome = true) ∧
    (∀ path, (s.SetSelectedTexture path).1 = s ∧
      (s.SetSelectedTexture path).2.isSome = true) ∧
    (∀ c, (s.SetSelectedColor c).1 = s ∧ (s.SetSelectedColor c).2.isSome = true) ∧
    (∀ name, (s.SetSelectedName name).1 = s ∧
      (s.SetSelectedName name).2.isSome = true) ∧
    (∀ motion, (s.SetSelectedMotion motion).1 = s ∧
      (s.SetSelectedMotion motion).2.isSome = true) ∧
    (∀ n offset, (s.DuplicateSelected n offset).1 = s ∧
      (s.DuplicateSelected n offset).2.2.isSome = true) ∧
    (s.FocusOnSelected.1 = s ∧ s.FocusOnSelected.2.isSome = true) := by
  have hneg : s.selectedIndex < 0 := by rw [h]; decide
  refine ⟨?_, ?_, ?_, ?_, ?_, ?_, ?_, ?_⟩ <;>
    simp [Scene.DeleteSelected, Scene.SetSelectedPhysics, Scene.SetSelectedTexture,
      Scene.SetSelectedColor, Scene.SetSelectedName, Scene.SetSelectedMotion,
      Scene.DuplicateSelected, Scene.FocusOnSelected, hneg]

/-- Witness for C9: the fresh scene has no selection, and DeleteSelected on it
errors without change. -/
theorem noSelection_ops_error_and_preserve_witness :
    Scene.new.selectedIndex = -1 ∧
    Scene.new.DeleteSelected.1 = Scene.new ∧
    Scene.new.DeleteSelected.2.isSome = true :=
  ⟨rfl, (noSelection_ops_error_and_preserve Scene.new rfl).1.1,
    (noSelection_ops_error_and_preserve Scene.new rfl).1.2⟩

/-! ## C2: static bodies and Step

The claim (and the code's own comments) say a static body never moves.  The
resolution branch `if bi.Static { moveI = 0; moveJ = depth }` does not check
whether bj is also static, so when two static bodies overlap the second one is
pushed by the full penetration depth.  The next theorem evaluates Step on that
failing input. -/

/-- C2 (failing-input evaluation): the second body is static and starts at the
origin, yet one Step moves it to x = 1: Step does not leave every static body's
position unchanged. -/
theorem step_moves_second_static_body :
    (twoStaticWorld.Bodies.getD 1 default).Static = true ∧
    (twoStaticWorld.Bodies.getD 1 default).Position = ⟨0, 0, 0⟩ ∧
    ((twoStaticWorld.Step 1).Bodies.getD 1 default).Position = ⟨1, 0, 0⟩ := by
  refine ⟨rfl, rfl, ?_⟩
  have hr2 : List.range 2 = [0, 1] := rfl
  have hr1 : List.range' (0 + 1) (2 - (0 + 1)) = [1] := rfl
  have hr0 : List.range' (1 + 1) (2 - (1 + 1)) = [] := rfl
  simp only [twoStaticWorld, staticUnitCube, World.Step, List.map_cons, List.map_nil,
    integrateBody, List.length_cons, List.length_nil, hr2, hr1, hr0,
    List.foldl_cons, List.foldl_nil, resolveAt, resolvePair, bodyAABB,
    checkCollisionBoxes, penetrationAxis, Vec3.coord, Vec3.setCoord]
  norm_num [min_def, max_def, List.set]

/-! ## C5: delete-selected then undo restores an identical object at the end -/

/-- C5: with a valid selection, DeleteSelected followed by Undo succeeds and
appends at the end of the object list an object equal (in every field) to the
one that was removed; the rest of the list is the original list with the
selected index erased. -/
theorem deleteSelected_undo_appends_identical (s : Scene)
    (h0 : 0 ≤ s.selectedIndex) (h1 : s.selectedIndex < (s.objects.length : Int)) :
    s.DeleteSelected.2 = none ∧
    s.DeleteSelected.1.Undo.2 = none ∧
    s.DeleteSelected.1.Undo.1.objects =
      s.objects.eraseIdx s.selectedIndex.toNat ++
        [s.objects.getD s.selectedIndex.toNat default] ∧
    s.DeleteSelected.1.Undo.1.objects.getLast? =
      some (s.objects.getD s.selectedIndex.toNat default) := by
  have hns : ¬ s.selectedIndex < 0 := not_lt.mpr h0
  have hcond : ¬ (s.selectedIndex < 0 ∨ (s.objects.length : Int) ≤ s.selectedIndex) :=
    not_or.mpr ⟨hns, not_le.mpr h1⟩
  have hrec : s.RecordDelete [s.objects.getD s.selectedIndex.toNat default] =
      { s with lastUndo := some (undoRecord.mk 0 [s.objects.getD s.selectedIndex.toNat default]) } := by
    simp [Scene.RecordDelete]
  simp only [Scene.DeleteSelected, if_neg hns, hrec, Scene.DeleteObjectAtIndex,
    if_neg hcond, Scene.Undo, Scene.syncSceneToPhysics,
    if_neg (lt_irrefl (0 : Int)), List.eraseIdx_eq_take_drop_succ,
    List.getLast?_concat]
  simp

/-- Witness for C5: a two-object scene with index 0 selected. -/
theorem deleteSelected_undo_appends_identical_witness :
    (0 : Int) ≤ sceneW1.selectedIndex ∧
    sceneW1.selectedIndex < (sceneW1.objects.length : Int) ∧
    sceneW1.DeleteSelected.1.Undo.1.objects =
      sceneW1.objects.eraseIdx sceneW1.selectedIndex.toNat ++
        [sceneW1.objects.getD sceneW1.selectedIndex.toNat default] :=
  ⟨by decide, by decide,
    (deleteSelected_undo_appends_identical sceneW1 (by decide) (by decide)).2.2.1⟩

/-! ## C3: DeleteObjectAtIndex functional correctness -/

/-- Index view of removing position n: indices below n are unchanged. -/
theorem getElem?_removeAt_lt {α : Type} (l : List α) (n j : Nat)
    (hn : n < l.length) (hj : j < n) :
    (l.take n ++ l.drop (n + 1))[j]? = l[j]? := by
  rw [List.getElem?_append_left, List.getElem?_take_of_lt hj]
  rw [List.length_take]
  omega

/-- Index view of removing position n: indices from n on shift down by one. -/
theorem getElem?_removeAt_ge {α : Type} (l : List α) (n j : Nat) (hj : n ≤ j) :
    (l.take n ++ l.drop (n + 1))[j]? = l[j + 1]? := by
  by_cases hn : n < l.length
  · rw [List.getElem?_append_right, List.getElem?_drop, List.length_take,
      Nat.min_eq_left (le_of_lt hn)]
    · congr 1
      omega
    · rw [List.length_take]
      omega
  · push_neg at hn
    rw [List.take_of_length_le hn, List.drop_eq_nil_of_le (by omega), List.append_nil,
      List.getElem?_eq_none (by omega), List.getElem?_eq_none (by omega)]

/-- C3: on a synchronised scene (equal-length lists), DeleteObjectAtIndex i with
0 ≤ i < number of objects succeeds, removes the object and the paired body at
index i (both lists shrink by one, indices below i unchanged, indices from i
shifted down by one), clears the selection when i was selected, decrements it
when a later index was selected and keeps it when an earlier index was
selected; for i out of range it returns an error and changes nothing. -/
theorem deleteObjectAtIndex_spec (s : Scene) (i : Int)
    (hsync : s.bodies.length = s.objects.length) :
    (0 ≤ i → i < (s.objects.length : Int) →
      (s.DeleteObjectAtIndex i).2 = none ∧
      (s.DeleteObjectAtIndex i).1.objects.length = s.objects.length - 1 ∧
      (s.DeleteObjectAtIndex i).1.bodies.length = s.objects.length - 1 ∧
      (∀ j : Nat, j < i.toNat →
        (s.DeleteObjectAtIndex i).1.objects[j]? = s.objects[j]? ∧
        (s.DeleteObjectAtIndex i).1.bodies[j]? = s.bodies[j]?) ∧
      (∀ j : Nat, i.toNat ≤ j →
        (s.DeleteObjectAtIndex i).1.objects[j]? = s.objects[j + 1]? ∧
        (s.DeleteObjectAtIndex i).1.bodies[j]? = s.bodies[j + 1]?) ∧
      (s.selectedIndex = i → (s.DeleteObjectAtIndex i).1.selectedIndex = -1) ∧
      (i < s.selectedIndex → (s.DeleteObjectAtIndex i).1.selectedIndex = s.selectedIndex - 1) ∧
      (s.selectedIndex < i → (s.DeleteObjectAtIndex i).1.selectedIndex = s.selectedIndex)) ∧
    ((i < 0 ∨ (s.objects.length : Int) ≤ i) →
      (s.DeleteObjectAtIndex i).1 = s ∧ (s.DeleteObjectAtIndex i).2.isSome = true) := by
  constructor
  · intro hi0 hi1
    have hcond : ¬ (i < 0 ∨ (s.objects.length : Int) ≤ i) :=
      not_or.mpr ⟨not_lt.mpr hi0, not_le.mpr hi1⟩
    have hin : i.toNat < s.objects.length := by omega
    have hib : i < (s.physicsWorld.Bodies.length : Int) := by
      unfold Scene.bodies at hsync
      omega
    simp only [Scene.DeleteObjectAtIndex, if_neg hcond, Scene.bodies, if_pos hib]
    refine ⟨by trivial, ?_, ?_, ?_, ?_, ?_, ?_, ?_⟩
    · simp only [List.length_append, List.length_take, List.length_drop]
      omega
    · simp only [List.length_append, List.length_take, List.length_drop]
      unfold Scene.bodies at hsync
      omega
    · intro j hj
      refine ⟨getElem?_removeAt_lt _ _ _ hin hj, getElem?_removeAt_lt _ _ _ (by
        unfold Scene.bodies at hsync
        omega) hj⟩
    · intro j hj
      exact ⟨getElem?_removeAt_ge _ _ _ hj, getElem?_removeAt_ge _ _ _ hj⟩
    · intro h
      simp [if_pos h]
    · intro h
      have hne : ¬ s.selectedIndex = i := by omega
      simp [if_neg hne, if_pos h]
    · intro h
      have hne : ¬ s.selectedIndex = i := by omega
      have hnlt : ¬ i < s.selectedIndex := by omega
      simp [if_neg hne, if_neg hnlt]
  · intro h
    simp only [Scene.DeleteObjectAtIndex, if_pos h]
    exact ⟨by trivial, by trivial⟩

/-- Witness for C3: deleting index 0 of a synchronised two-object scene with
index 1 selected succeeds and decrements the selection. -/
theorem deleteObjectAtIndex_spec_witness :
    sceneW2.bodies.length = sceneW2.objects.length ∧
    (sceneW2.DeleteObjectAtIndex 0).2 = none ∧
    (sceneW2.DeleteObjectAtIndex 0).1.objects.length = sceneW2.objects.length - 1 ∧
    (sceneW2.DeleteObjectAtIndex 0).1.selectedIndex = 0 := by
  have h := deleteObjectAtIndex_spec sceneW2 0 rfl
  have hs := h.1 (by decide) (by decide)
  exact ⟨rfl, hs.1, hs.2.1, by
    have := hs.2.2.2.2.2.2.1 (by decide)
    simpa using this⟩

/-! ## C1: the index-pairing invariant -/

/-- A successful optional lookup implies the index is in range. -/
theorem lt_length_of_getElem?_some {α : Type} {l : List α} {j : Nat} {a : α}
    (h : l[j]? = some a) : j < l.length := by
  by_contra hc
  rw [List.getElem?_eq_none (Nat.le_of_not_lt hc)] at h
  exact Option.noConfusion h

/-- AddObject preserves the pairing invariant (it appends an object and leaves
the bodies alone, so the body list stays a matched prefix). -/
theorem paired_AddObject (s : Scene) (obj : ObjectInstance) (hp : Paired s) :
    Paired (s.AddObject obj) := by
  obtain ⟨hlen, hmatch⟩ := hp
  constructor
  · simp only [Scene.AddObject, Scene.bodies, List.length_append, List.length_cons,
      List.length_nil] at *
    omega
  · intro j b o hb ho
    have hj : j < s.bodies.length := lt_length_of_getElem?_some hb
    rw [show (s.AddObject obj).objects = s.objects ++ [obj] from rfl,
      List.getElem?_append_left (lt_of_lt_of_le hj hlen)] at ho
    exact hmatch j b o hb ho

/-- One-step unfolding characterisation of ensurePhysicsBodies: it preserves
the object list and the selection, and starting from a paired scene it
produces a fully synchronised one. -/
theorem ensurePhysicsBodies_spec : ∀ (k : Nat) (s : Scene),
    s.objects.length - s.physicsWorld.Bodies.length = k →
    s.ensurePhysicsBodies.objects = s.objects ∧
    s.ensurePhysicsBodies.selectedIndex = s.selectedIndex ∧
    (Paired s → Synced s.ensurePhysicsBodies) := by
  intro k
  induction k using Nat.strong_induction_on with
  | _ k ih =>
    intro s hk
    rw [Scene.ensurePhysicsBodies]
    split
    case isTrue h =>
      set b := NewBody (s.objects.get ⟨s.physicsWorld.Bodies.length, h⟩).position
        (scaleForPhysicsBody (s.objects.get ⟨s.physicsWorld.Bodies.length, h⟩))
        1 (!physicsEnabled (s.objects.get ⟨s.physicsWorld.Bodies.length, h⟩)) with hbdef
      set s' : Scene := { s with physicsWorld := s.physicsWorld.AddBody b } with hs'
      have hlen' : s'.physicsWorld.Bodies.length = s.physicsWorld.Bodies.length + 1 := by
        simp [hs', World.AddBody]
      have hmeas : s'.objects.length - s'.physicsWorld.Bodies.length < k := by
        have : s'.objects.length = s.objects.length := rfl
        omega
      obtain ⟨ho, hsel, hpair⟩ := ih _ hmeas s' rfl
      refine ⟨ho, hsel, fun hp => hpair ?_⟩
      obtain ⟨hle, hmatch⟩ := hp
      constructor
      · show s'.physicsWorld.Bodies.length ≤ s'.objects.length
        have : s'.objects.length = s.objects.length := rfl
        omega
      · intro j bb o hb hoo
        have hj : j < s.physicsWorld.Bodies.length + 1 := by
          have := lt_length_of_getElem?_some hb
          rw [show s'.bodies = s.physicsWorld.Bodies ++ [b] from rfl] at this
          simpa using this
        rw [show s'.bodies = s.physicsWorld.Bodies ++ [b] from rfl] at hb
        rw [show s'.objects = s.objects from rfl] at hoo
        by_cases hjl : j < s.physicsWorld.Bodies.length
        · rw [List.getElem?_append_left hjl] at hb
          exact hmatch j bb o hb hoo
        · have hje : j = s.physicsWorld.Bodies.length := by omega
          subst hje
          rw [List.getElem?_append_right (le_refl _), Nat.sub_self] at hb
          simp only [List.getElem?_cons_zero, Option.some.injEq] at hb
          rw [List.getElem?_eq_getElem h] at hoo
          simp only [Option.some.injEq] at hoo
          subst hb
          subst hoo
          exact ⟨rfl, rfl, rfl⟩
    case isFalse h =>
      refine ⟨rfl, rfl, fun hp => ⟨hp, ?_⟩⟩
      have := hp.1
      simp only [Scene.bodies] at *
      omega

/-- DeleteObjectAtIndex preserves the pairing invariant for any index. -/
theorem paired_DeleteObjectAtIndex (s : Scene) (i : Int) (hp : Paired s) :
    Paired (s.DeleteObjectAtIndex i).1 := by
  obtain ⟨hlen, hmatch⟩ := hp
  simp only [Scene.bodies] at hlen
  by_cases h : i < 0 ∨ (s.objects.length : Int) ≤ i
  · simp only [Scene.DeleteObjectAtIndex, if_pos h]
    exact ⟨hlen, hmatch⟩
  · have hc := h
    push_neg at hc
    obtain ⟨h0, h1⟩ := hc
    have hin : i.toNat < s.objects.length := by omega
    simp only [Scene.DeleteObjectAtIndex, if_neg h]
    refine ⟨?_, ?_⟩
    · simp only [Scene.bodies]
      by_cases hib : i < (s.physicsWorld.Bodies.length : Int)
      · rw [if_pos hib]
        simp only [List.length_append, List.length_take, List.length_drop]
        omega
      · rw [if_neg hib]
        simp only [List.length_append, List.length_take, List.length_drop]
        omega
    · intro j b o hb hoo
      simp only [Scene.bodies] at hb
      simp only [] at hoo
      by_cases hib : i < (s.physicsWorld.Bodies.length : Int)
      · rw [if_pos hib] at hb
        have hnb : i.toNat < s.physicsWorld.Bodies.length := by omega
        by_cases hj : j < i.toNat
        · rw [getElem?_removeAt_lt _ _ _ hnb hj] at hb
          rw [getElem?_removeAt_lt _ _ _ hin hj] at hoo
          exact hmatch j b o hb hoo
        · have hj' : i.toNat ≤ j := by omega
          rw [getElem?_removeAt_ge _ _ _ hj'] at hb
          rw [getElem?_removeAt_ge _ _ _ hj'] at hoo
          exact hmatch (j + 1) b o hb hoo
      · rw [if_neg hib] at hb
        have hj : j < s.physicsWorld.Bodies.length :=
          lt_length_of_getElem?_some hb
        have hjlt : j < i.toNat := by omega
        rw [getElem?_removeAt_lt _ _ _ hin hjlt] at hoo
        exact hmatch j b o hb hoo

/-- On a synchronised scene, DeleteObjectAtIndex keeps the lists the same
length (both shrink on success, neither changes on error). -/
theorem synced_DeleteObjectAtIndex (s : Scene) (i : Int) (hs : Synced s) :
    Synced (s.DeleteObjectAtIndex i).1 := by
  refine ⟨paired_DeleteObjectAtIndex s i hs.1, ?_⟩
  have hlen := hs.2
  simp only [Scene.bodies] at hlen
  by_cases h : i < 0 ∨ (s.objects.length : Int) ≤ i
  · simp only [Scene.DeleteObjectAtIndex, if_pos h]
    exact hs.2
  · have hc := h
    push_neg at hc
    obtain ⟨h0, h1⟩ := hc
    have hib : i < (s.physicsWorld.Bodies.length : Int) := by omega
    simp only [Scene.DeleteObjectAtIndex, if_neg h, Scene.bodies, if_pos hib,
      List.length_append, List.length_take, List.length_drop]
    omega

/-- Every add/delete operation (with the per-frame sync) preserves pairing. -/
theorem paired_applyAddDelOp (s : Scene) (op : AddDelOp) (hp : Paired s) :
    Paired (applyAddDelOp s op) := by
  cases op with
  | addObject obj => exact paired_AddObject s obj hp
  | addPrimitive typ p sc => exact paired_AddObject s _ hp
  | addPrimitiveWithPhysics typ p sc ph c =>
      cases c with
      | none => exact paired_AddObject s _ hp
      | some cc => exact paired_AddObject s _ hp
  | ensureBodies => exact ((ensurePhysicsBodies_spec _ s rfl).2.2 hp).1
  | deleteAt i => exact paired_DeleteObjectAtIndex s i hp

/-- Pairing holds along any run of add/delete operations. -/
theorem paired_runAddDelOps (ops : List AddDelOp) (s : Scene) (hp : Paired s) :
    Paired (runAddDelOps ops s) := by
  induction ops generalizing s with
  | nil => exact hp
  | cons op rest ih => exact ih _ (paired_applyAddDelOp s op hp)

/-- C1 (amended): along every sequence of add and delete operations starting
from a fresh scene, the body list is always a matched prefix of the object list
(body i corresponds to object i wherever a body exists, and there are never
more bodies than objects); and any delete executed after the per-frame body
synchronisation ensurePhysicsBodies (as Update performs it each frame) leaves
the two lists exactly the same length and fully paired.  (As literally stated
the claim is false: AddObject alone does not create the paired body, so a
delete that follows un-synchronised adds sees fewer bodies than objects - see
the counterexample.) -/
theorem scene_index_pairing (ops : List AddDelOp) (i : Int) :
    Paired (runAddDelOps ops Scene.new) ∧
    ((runAddDelOps ops Scene.new).ensurePhysicsBodies.DeleteObjectAtIndex i).1.bodies.length =
      ((runAddDelOps ops Scene.new).ensurePhysicsBodies.DeleteObjectAtIndex i).1.objects.length ∧
    Paired ((runAddDelOps ops Scene.new).ensurePhysicsBodies.DeleteObjectAtIndex i).1 := by
  have hnew : Paired Scene.new := by
    constructor
    · exact le_refl 0
    · intro j b o hb ho
      simp [Scene.new, Scene.bodies, NewWorld] at hb
  have hrun := paired_runAddDelOps ops Scene.new hnew
  have hsync := (ensurePhysicsBodies_spec _ (runAddDelOps ops Scene.new) rfl).2.2 hrun
  have hdel := synced_DeleteObjectAtIndex _ i hsync
  exact ⟨hrun, hdel.2, hdel.1⟩

/-- Counterexample to C1 as stated: two raw AddObject calls followed by a
delete at index 0 leave one object but zero bodies, so the lists do not have
equal length immediately after the delete. -/
theorem scene_index_pairing_counterexample :
    (runAddDelOps [AddDelOp.addObject cube0, AddDelOp.addObject cube0,
        AddDelOp.deleteAt 0] Scene.new).objects.length = 1 ∧
    (runAddDelOps [AddDelOp.addObject cube0, AddDelOp.addObject cube0,
        AddDelOp.deleteAt 0] Scene.new).bodies.length = 0 := by
  constructor <;> rfl

/-! ## C10: validity of the selection index -/

/-- Invariant of the pick loop fold: the running best index stays -1 or a
valid index below n. -/
theorem pickBest_foldl_bounds (hits : Nat → RayCollision) (n : Nat)
    (l : List Nat) (acc : Int × ℚ × RayCollision)
    (hl : ∀ x ∈ l, x < n)
    (hacc : acc.1 = -1 ∨ (0 ≤ acc.1 ∧ acc.1 < (n : Int))) :
    (l.foldl
      (fun acc i =>
        let h := hits i
        if h.Hit = true ∧ 0 < h.Distance ∧ h.Distance < acc.2.1
        then ((i : Int), h.Distance, h)
        else acc) acc).1 = -1 ∨
    (0 ≤ (l.foldl
      (fun acc i =>
        let h := hits i
        if h.Hit = true ∧ 0 < h.Distance ∧ h.Distance < acc.2.1
        then ((i : Int), h.Distance, h)
        else acc) acc).1 ∧
     (l.foldl
      (fun acc i =>
        let h := hits i
        if h.Hit = true ∧ 0 < h.Distance ∧ h.Distance < acc.2.1
        then ((i : Int), h.Distance, h)
        else acc) acc).1 < (n : Int)) := by
  induction l generalizing acc with
  | nil => exact hacc
  | cons x xs ih =>
    simp only [List.foldl_cons]
    apply ih
    · intro y hy
      exact hl y (List.mem_cons_of_mem _ hy)
    · split
      · right
        dsimp only
        constructor
        · exact_mod_cast Nat.zero_le x
        · exact_mod_cast hl x (List.mem_cons_self x xs)
      · exact hacc

/-- The pick loop returns -1 or a valid index of the scanned range. -/
theorem pickBest_bounds (hits : Nat → RayCollision) (n : Nat) :
    (pickBest hits n).1 = -1 ∨
    (0 ≤ (pickBest hits n).1 ∧ (pickBest hits n).1 < (n : Int)) := by
  unfold pickBest
  exact pickBest_foldl_bounds hits n (List.range n) _
    (fun x hx => List.mem_range.mp hx) (Or.inl rfl)

/-- DeleteObjectAtIndex preserves selection validity for any index. -/
theorem selOK_DeleteObjectAtIndex (s : Scene) (i : Int) (h : SelOK s) :
    SelOK (s.DeleteObjectAtIndex i).1 := by
  by_cases hc : i < 0 ∨ (s.objects.length : Int) ≤ i
  · simpa only [Scene.DeleteObjectAtIndex, if_pos hc] using h
  · have hc2 := hc
    push_neg at hc2
    obtain ⟨h0, h1⟩ := hc2
    simp only [Scene.DeleteObjectAtIndex, if_neg hc]
    unfold SelOK at h ⊢
    simp only [List.length_append, List.length_take, List.length_drop]
    by_cases he : s.selectedIndex = i
    · rw [if_pos he]
      exact Or.inl rfl
    · rw [if_neg he]
      by_cases hlt : i < s.selectedIndex
      · rw [if_pos hlt]
        rcases h with h | h <;> [omega; (right; omega)]
      · rw [if_neg hlt]
        rcases h with h | h
        · exact Or.inl h
        · right
          omega

/-- Undo preserves selection validity (the truncating branch clamps, the
re-append branch only grows the list). -/
theorem selOK_Undo (s : Scene) (h : SelOK s) : SelOK s.Undo.1 := by
  unfold Scene.Undo
  cases hl : s.lastUndo with
  | none => exact h
  | some r =>
    by_cases ha : 0 < r.addCount
    · simp only [if_pos ha]
      unfold SelOK at h ⊢
      dsimp only [Scene.syncSceneToPhysics]
      simp only [List.length_take]
      split
      · next hcl => omega
      · next hcl =>
          rcases h with h | h <;> omega
    · simp only [if_neg ha]
      unfold SelOK at h ⊢
      dsimp only [Scene.syncSceneToPhysics]
      simp only [List.length_append]
      rcases h with h | h <;> omega

/-- DuplicateSelected preserves selection validity (it only appends clones). -/
theorem selOK_DuplicateSelected (s : Scene) (n : Int) (offset : Vec3)
    (h : SelOK s) : SelOK (s.DuplicateSelected n offset).1 := by
  unfold Scene.DuplicateSelected
  by_cases h0 : s.selectedIndex < 0
  · simpa only [if_pos h0] using h
  · simp only [if_neg h0]
    by_cases h1 : n ≤ 0
    · simpa only [if_pos h1] using h
    · simp only [if_neg h1]
      unfold SelOK at h ⊢
      dsimp only [Scene.syncSceneToPhysics]
      simp only [List.length_append]
      rcases h with h | h <;> omega

/-- UpdateEditor preserves selection validity: the pick loop yields -1 or a
valid index, and the drag branches only rewrite an object in place. -/
theorem selOK_UpdateEditor (s : Scene) (inp : EditorInput) (h : SelOK s) :
    SelOK (s.UpdateEditor inp) := by
  unfold Scene.UpdateEditor
  by_cases h1 : !inp.cursorVisible
  · simpa only [if_pos h1] using h
  rw [if_neg h1]
  by_cases h2 : s.objects.length = 0
  · simpa only [if_pos h2] using h
  rw [if_neg h2]
  by_cases h3 : inp.screenHeight - inp.terminalBarHeight ≤ inp.mouseY
  · simpa only [if_pos h3] using h
  rw [if_neg h3]
  by_cases h4 : inp.mouseReleased = true
  · simpa only [if_pos h4] using h
  rw [if_neg h4]
  by_cases h5 : s.dragMode = 2 ∧ 0 ≤ s.selectedIndex ∧
      s.selectedIndex < (s.objects.length : Int)
  · rw [if_pos h5]
    unfold SelOK at h ⊢
    simpa only [List.length_set] using h
  rw [if_neg h5]
  by_cases h6 : inp.mousePressed = true
  · rw [if_pos h6]
    have hb := pickBest_bounds inp.hits s.objects.length
    by_cases h7 : 0 ≤ (pickBest inp.hits s.objects.length).1
    · rw [if_pos h7]
      have hlt : (pickBest inp.hits s.objects.length).1 < (s.objects.length : Int) := by
        rcases hb with hb | hb
        · omega
        · exact hb.2
      split
      · exact Or.inr ⟨h7, hlt⟩
      · exact Or.inr ⟨h7, hlt⟩
    · rw [if_neg h7]
      left
      rcases hb with hb | hb
      · exact hb
      · exact absurd hb.1 h7
  rw [if_neg h6]
  by_cases h8 : s.dragMode = 1 ∧ s.dragging = true ∧ 0 ≤ s.selectedIndex ∧
      s.selectedIndex < (s.objects.length : Int)
  · rw [if_pos h8]
    dsimp only
    cases hr : rayPlaneY inp.ray
        ((s.objects.getD s.selectedIndex.toNat default).position.y) with
    | some hit =>
        unfold SelOK at h ⊢
        dsimp only
        simpa only [List.length_set] using h
    | none => exact h
  · rw [if_neg h8]
    exact h

/-- Every public scene operation other than NewScene preserves selection
validity. -/
theorem selOK_applySceneOp (s : Scene) (op : SceneOp)
    (hop : op.isNewScene = false) (h : SelOK s) : SelOK (applySceneOp s op) := by
  cases op with
  | addObject obj =>
      unfold SelOK at h ⊢
      simp only [applySceneOp, Scene.AddObject, List.length_append]
      rcases h with h | h
      · exact Or.inl h
      · right
        omega
  | addPrimitive typ p sc =>
      unfold SelOK at h ⊢
      simp only [applySceneOp, Scene.AddPrimitive, Scene.AddObject, List.length_append]
      rcases h with h | h
      · exact Or.inl h
      · right
        omega
  | addPrimitiveWithPhysics typ p sc ph c =>
      unfold SelOK at h ⊢
      cases c <;>
        simp only [applySceneOp, Scene.AddPrimitiveWithPhysics, Scene.AddObject,
          List.length_append] <;>
        (rcases h with h | h
         · exact Or.inl h
         · right
           omega)
  | ensureBodies =>
      obtain ⟨ho, hsel, _⟩ := ensurePhysicsBodies_spec _ s rfl
      unfold SelOK at h ⊢
      rw [show applySceneOp s SceneOp.ensureBodies = s.ensurePhysicsBodies from rfl,
        ho, hsel]
      exact h
  | deleteAt i => exact selOK_DeleteObjectAtIndex s i h
  | deleteSelected =>
      show SelOK s.DeleteSelected.1
      unfold Scene.DeleteSelected
      by_cases h0 : s.selectedIndex < 0
      · simpa only [if_pos h0] using h
      · simp only [if_neg h0]
        apply selOK_DeleteObjectAtIndex
        unfold Scene.RecordDelete
        simpa using h
  | clearSelection => exact Or.inl rfl
  | selectVisible idx =>
      show SelOK _
      simp only [applySceneOp]
      split
      · next hlt =>
          right
          dsimp only
          constructor
          · exact_mod_cast Nat.zero_le idx
          · exact_mod_cast hlt
      · exact h
  | updateEditor inp => exact selOK_UpdateEditor s inp h
  | undo => exact selOK_Undo s h
  | duplicateSelected n offset => exact selOK_DuplicateSelected s n offset h
  | newScene => exact absurd hop (by simp [SceneOp.isNewScene])

/-- Selection validity holds along any run of newScene-free operations. -/
theorem selOK_runSceneOps (ops : List SceneOp) (s : Scene)
    (hops : ops.all (fun op => !op.isNewScene) = true) (h : SelOK s) :
    SelOK (runSceneOps ops s) := by
  induction ops generalizing s with
  | nil => exact h
  | cons op rest ih =>
    rw [List.all_cons, Bool.and_eq_true] at hops
    exact ih _ hops.2 (selOK_applySceneOp s op (by
      have := hops.1
      revert this
      cases op.isNewScene <;> simp) h)

/-- C10 (amended): starting from a fresh scene, after every sequence of public
scene operations that does not contain NewScene, the selection index is either
-1 or a valid index of the current object list.  (As literally stated the
claim is false: NewScene clears the object lists but leaves the selection
index untouched, so a held selection survives it as a stale out-of-range
index - see the counterexample.) -/
theorem selection_valid_without_newScene (ops : List SceneOp)
    (hops : ops.all (fun op => !op.isNewScene) = true) :
    SelOK (runSceneOps ops Scene.new) :=
  selOK_runSceneOps ops Scene.new hops (Or.inl rfl)

/-- Witness for C10 (amended): adding an object and selecting it keeps the
selection valid. -/
theorem selection_valid_without_newScene_witness :
    ([SceneOp.addObject cube0, SceneOp.selectVisible 0].all
      (fun op => !op.isNewScene) = true) ∧
    SelOK (runSceneOps [SceneOp.addObject cube0, SceneOp.selectVisible 0]
      Scene.new) :=
  ⟨by decide, selection_valid_without_newScene _ (by decide)⟩

/-- Counterexample to C10 as stated: add an object, select it, then NewScene;
the object list is empty but the selection index is still 0, which is neither
-1 nor a valid index. -/
theorem selection_valid_counterexample :
    ¬ SelOK (runSceneOps [SceneOp.addObject cube0, SceneOp.selectVisible 0,
        SceneOp.newScene] Scene.new) := by
  decide

/-! ## C6: pointer-down picking selects the closest positive hit -/

/-- Unfolding the pick loop by its last index. -/
theorem pickBest_succ (hits : Nat → RayCollision) (n : Nat) :
    pickBest hits (n + 1) =
      (let h := hits n
       if h.Hit = true ∧ 0 < h.Distance ∧ h.Distance < (pickBest hits n).2.1
       then ((n : Int), h.Distance, h)
       else pickBest hits n) := by
  unfold pickBest
  rw [List.range_succ, List.foldl_append]
  rfl

/-- Full characterisation of the pick loop: either no index qualifies (hit at
positive distance below the sentinel) and the result is the initial
(-1, 1e30, zero) accumulator, or the result is the qualifying index with the
smallest distance, ties resolved to the lowest index. -/
theorem pickBest_characterisation (hits : Nat → RayCollision) (n : Nat) :
    ((pickBest hits n).1 = -1 ∧ (pickBest hits n).2.1 = 10 ^ 30 ∧
      ∀ i, i < n → ¬ HitP hits i) ∨
    (∃ i, i < n ∧ (pickBest hits n).1 = (i : Int) ∧ HitP hits i ∧
      (pickBest hits n).2.1 = (hits i).Distance ∧
      (pickBest hits n).2.2 = hits i ∧
      (∀ j, j < n → HitP hits j → (hits i).Distance ≤ (hits j).Distance) ∧
      (∀ j, j < n → HitP hits j → (hits j).Distance = (hits i).Distance → i ≤ j)) := by
  induction n with
  | zero =>
    left
    refine ⟨rfl, rfl, ?_⟩
    intro i hi
    omega
  | succ n ih =>
    rw [pickBest_succ]
    rcases ih with ⟨e1, e2, hnone⟩ | ⟨i, hi, e1, hHit, e2, e3, hmin, htie⟩
    · by_cases hn : HitP hits n
      · rw [if_pos (by
          obtain ⟨a, b, c⟩ := hn
          exact ⟨a, b, by rw [e2]; exact c⟩)]
        right
        refine ⟨n, Nat.lt_succ_self n, rfl, hn, rfl, rfl, ?_, ?_⟩
        · intro j hj hHj
          have : j = n := by
            by_contra hne
            exact hnone j (by omega) hHj
          subst this
          exact le_refl _
        · intro j hj hHj _
          by_contra hne
          exact hnone j (by omega) hHj
      · rw [if_neg (by
          rw [e2]
          intro hc
          exact hn hc)]
        left
        refine ⟨e1, e2, ?_⟩
        intro i hi
        by_cases hin : i = n
        · subst hin
          exact hn
        · exact hnone i (by omega)
    · by_cases hc : (hits n).Hit = true ∧ 0 < (hits n).Distance ∧
          (hits n).Distance < (pickBest hits n).2.1
      · rw [if_pos hc]
        right
        have hdn : (hits n).Distance < (hits i).Distance := by
          have := hc.2.2
          rwa [e2] at this
        have hHn : HitP hits n :=
          ⟨hc.1, hc.2.1, lt_trans hdn hHit.2.2⟩
        refine ⟨n, Nat.lt_succ_self n, rfl, hHn, rfl, rfl, ?_, ?_⟩
        · intro j hj hHj
          by_cases hjn : j = n
          · subst hjn
            exact le_refl _
          · exact le_trans (le_of_lt hdn) (hmin j (by omega) hHj)
        · intro j hj hHj heq
          by_cases hjn : j = n
          · omega
          · exfalso
            have h1 := hmin j (by omega) hHj
            rw [heq] at h1
            exact absurd (lt_of_lt_of_le hdn h1) (lt_irrefl _)
      · rw [if_neg hc]
        right
        refine ⟨i, by omega, e1, hHit, e2, e3, ?_, ?_⟩
        · intro j hj hHj
          by_cases hjn : j = n
          · subst hjn
            by_contra hlt
            push_neg at hlt
            exact hc ⟨hHj.1, hHj.2.1, by rw [e2]; exact hlt⟩
          · exact hmin j (by omega) hHj
        · intro j hj hHj heq
          by_cases hjn : j = n
          · omega
          · exact htie j (by omega) hHj heq

/-- In a pick frame, UpdateEditor sets the selection to the pick loop's best
index, whichever drag mode follows. -/
theorem updateEditor_pick_sel (s : Scene) (inp : EditorInput)
    (hf : PickFrame s inp) :
    (s.UpdateEditor inp).selectedIndex = (pickBest inp.hits s.objects.length).1 := by
  obtain ⟨hcv, hne, hbar, hrel, hndrag, hpress⟩ := hf
  unfold Scene.UpdateEditor
  rw [if_neg (by simp [hcv]), if_neg hne, if_neg (by omega),
    if_neg (by simp [hrel]), if_neg hndrag, if_pos hpress]
  dsimp only
  split
  · split <;> rfl
  · rfl

/-- C6 (amended): on pointer-down in editor mode, among the objects whose AABB
the mouse ray hits at a strictly positive distance below the 1e30 sentinel
initial best distance, the one with the smallest hit distance becomes the
selection, ties broken in favour of the lower store index; when no object
qualifies the selection is set to -1.  (As literally stated the claim is
false: a hit at distance ≥ 1e30 is discarded by the sentinel - see the
counterexample.) -/
theorem updateEditor_pick_closest (s : Scene) (inp : EditorInput)
    (hf : PickFrame s inp) :
    ((∀ i, i < s.objects.length → ¬ HitP inp.hits i) →
      (s.UpdateEditor inp).selectedIndex = -1) ∧
    (∀ i0, i0 < s.objects.length → HitP inp.hits i0 →
      ∃ iSel, iSel < s.objects.length ∧ HitP inp.hits iSel ∧
        (s.UpdateEditor inp).selectedIndex = (iSel : Int) ∧
        (∀ j, j < s.objects.length → HitP inp.hits j →
          (inp.hits iSel).Distance ≤ (inp.hits j).Distance) ∧
        (∀ j, j < s.objects.length → HitP inp.hits j →
          (inp.hits j).Distance = (inp.hits iSel).Distance → iSel ≤ j)) := by
  have hsel := updateEditor_pick_sel s inp hf
  rcases pickBest_characterisation inp.hits s.objects.length with
    ⟨e1, _, hnone⟩ | ⟨i, hi, e1, hHit, _, _, hmin, htie⟩
  · constructor
    · intro _
      rw [hsel, e1]
    · intro i0 h0 hH
      exact absurd hH (hnone i0 h0)
  · constructor
    · intro hno
      exact absurd hHit (hno i hi)
    · intro i0 h0 hH
      exact ⟨i, hi, hHit, by rw [hsel, e1], hmin, htie⟩

/-- Witness for C6 (amended): with object 0 hit at distance 7 and object 1 hit
at distance 3, pointer-down selects index 1. -/
theorem updateEditor_pick_closest_witness :
    PickFrame sceneW6 inpW6 ∧ (sceneW6.UpdateEditor inpW6).selectedIndex = 1 := by
  have h := (updateEditor_pick_closest sceneW6 inpW6 (by decide)).2 1 (by decide)
    (by norm_num [HitP, inpW6, hitsW6])
  obtain ⟨iSel, hlt, hHit, hsel, hmin, _⟩ := h
  have h0 : HitP inpW6.hits 0 := by norm_num [HitP, inpW6, hitsW6]
  have hle : (inpW6.hits iSel).Distance ≤ 3 := by
    have := hmin 1 (by decide) (by norm_num [HitP, inpW6, hitsW6])
    simpa [inpW6, hitsW6] using this
  refine ⟨by decide, ?_⟩
  rw [hsel]
  have h2 : iSel < 2 := by simpa [sceneW6] using hlt
  interval_cases iSel
  · exfalso
    simp only [inpW6, hitsW6] at hle
    norm_num at hle
  · rfl

/-- Counterexample to C6 as stated: the only object is hit at the strictly
positive distance 1e30, yet pointer-down sets the selection to -1 instead of
selecting it. -/
theorem updateEditor_pick_counterexample :
    (inpFar.hits 0).Hit = true ∧ 0 < (inpFar.hits 0).Distance ∧
    PickFrame sceneOne inpFar ∧
    (sceneOne.UpdateEditor inpFar).selectedIndex = -1 := by
  refine ⟨rfl, by norm_num [inpFar, hitsFar], by decide, ?_⟩
  rw [updateEditor_pick_sel sceneOne inpFar (by decide)]
  rcases pickBest_characterisation inpFar.hits sceneOne.objects.length with
    ⟨e1, _, _⟩ | ⟨i, hi, _, hHit, _, _, _, _⟩
  · exact e1
  · exfalso
    have := hHit.2.2
    have hone : sceneOne.objects.length = 1 := rfl
    rw [hone] at hi
    interval_cases i
    simp only [inpFar, hitsFar] at this
    exact absurd this (lt_irrefl _)

/-! ## C7: face classification and per-frame drag effects -/

/-- C7: at the moment of pick, an AABB face normal (whose vertical component is
-1, 0 or 1) with magnitude ≥ 0.99 yields HorizontalDrag (mode 1) and any other
face yields VerticalDrag (mode 2); every vertical-drag frame leaves the
selected object's X and Z unchanged and every other object untouched; every
horizontal-drag frame leaves the selected object's Y unchanged and every other
object untouched. -/
theorem updateEditor_dragmode_faces (s : Scene) (inp : EditorInput) :
    (PickFrame s inp →
      0 ≤ (pickBest inp.hits s.objects.length).1 →
      ((pickBest inp.hits s.objects.length).2.2.Normal.y = -1 ∨
       (pickBest inp.hits s.objects.length).2.2.Normal.y = 0 ∨
       (pickBest inp.hits s.objects.length).2.2.Normal.y = 1) →
      ((99/100 ≤ |(pickBest inp.hits s.objects.length).2.2.Normal.y| →
        (s.UpdateEditor inp).dragMode = 1) ∧
       (|(pickBest inp.hits s.objects.length).2.2.Normal.y| < 99/100 →
        (s.UpdateEditor inp).dragMode = 2))) ∧
    (VDragFrame s inp →
      ((s.UpdateEditor inp).objects[s.selectedIndex.toNat]?.map
          (fun o => o.position.x) =
        s.objects[s.selectedIndex.toNat]?.map (fun o => o.position.x) ∧
       (s.UpdateEditor inp).objects[s.selectedIndex.toNat]?.map
          (fun o => o.position.z) =
        s.objects[s.selectedIndex.toNat]?.map (fun o => o.position.z) ∧
       ∀ j, j ≠ s.selectedIndex.toNat →
         (s.UpdateEditor inp).objects[j]? = s.objects[j]?)) ∧
    (HDragFrame s inp →
      ((s.UpdateEditor inp).objects[s.selectedIndex.toNat]?.map
          (fun o => o.position.y) =
        s.objects[s.selectedIndex.toNat]?.map (fun o => o.position.y) ∧
       ∀ j, j ≠ s.selectedIndex.toNat →
         (s.UpdateEditor inp).objects[j]? = s.objects[j]?)) := by
  refine ⟨?_, ?_, ?_⟩
  · intro hf h0 hyv
    obtain ⟨hcv, hne, hbar, hrel, hndrag, hpress⟩ := hf
    unfold Scene.UpdateEditor
    rw [if_neg (by simp [hcv]), if_neg hne, if_neg (by omega),
      if_neg (by simp [hrel]), if_neg hndrag, if_pos hpress]
    dsimp only
    rw [if_pos h0]
    rcases hyv with hy | hy | hy
    · rw [if_pos (Or.inr (by rw [hy]; norm_num))]
      constructor
      · intro _
        rfl
      · intro habs
        rw [hy] at habs
        norm_num at habs
    · rw [if_neg (by rw [hy]; norm_num)]
      constructor
      · intro habs
        rw [hy] at habs
        norm_num at habs
      · intro _
        rfl
    · rw [if_pos (Or.inl (by rw [hy]; norm_num))]
      constructor
      · intro _
        rfl
      · intro habs
        rw [hy] at habs
        norm_num at habs
  · intro hv
    obtain ⟨hcv, hne, hbar, hrel, hdm, h0, hlen⟩ := hv
    have hn : s.selectedIndex.toNat < s.objects.length := by omega
    unfold Scene.UpdateEditor
    rw [if_neg (by simp [hcv]), if_neg hne, if_neg (by omega),
      if_neg (by simp [hrel]), if_pos ⟨hdm, h0, hlen⟩]
    dsimp only
    rw [List.getElem?_set_eq_of_lt _ hn, List.getElem?_eq_getElem hn,
      List.getD_eq_getElem?_getD, List.getElem?_eq_getElem hn]
    refine ⟨rfl, rfl, ?_⟩
    intro j hj
    exact List.getElem?_set_ne (fun he => hj he.symm)
  · intro hh
    obtain ⟨hcv, hne, hbar, hrel, hndrag, hpress, hdm, hdr, h0, hlen⟩ := hh
    have hn : s.selectedIndex.toNat < s.objects.length := by omega
    unfold Scene.UpdateEditor
    rw [if_neg (by simp [hcv]), if_neg hne, if_neg (by omega),
      if_neg (by simp [hrel]), if_neg hndrag, if_neg (by simp [hpress]),
      if_pos ⟨hdm, hdr, h0, hlen⟩]
    dsimp only
    cases hr : rayPlaneY inp.ray
        ((s.objects.getD s.selectedIndex.toNat default).position.y) with
    | some hit =>
        dsimp only
        rw [List.getElem?_set_eq_of_lt _ hn, List.getElem?_eq_getElem hn,
          List.getD_eq_getElem?_getD, List.getElem?_eq_getElem hn]
        refine ⟨rfl, ?_⟩
        intro j hj
        exact List.getElem?_set_ne (fun he => hj he.symm)
    | none => exact ⟨rfl, fun j _ => rfl⟩

/-- Witness for C7: a held-button vertical-drag frame on a one-cube scene
leaves the selected object's X unchanged; a pick frame with a top-face normal
(from hitsFar, normal (0,1,0), but at an accepted distance) yields mode 1. -/
theorem updateEditor_dragmode_faces_witness :
    VDragFrame sceneVD inpVD ∧
    (sceneVD.UpdateEditor inpVD).objects[sceneVD.selectedIndex.toNat]?.map
        (fun o => o.position.x) =
      sceneVD.objects[sceneVD.selectedIndex.toNat]?.map (fun o => o.position.x) ∧
    HDragFrame sceneHD inpHD ∧
    (sceneHD.UpdateEditor inpHD).objects[sceneHD.selectedIndex.toNat]?.map
        (fun o => o.position.y) =
      sceneHD.objects[sceneHD.selectedIndex.toNat]?.map (fun o => o.position.y) :=
  ⟨by decide, ((updateEditor_dragmode_faces sceneVD inpVD).2.1 (by decide)).1,
   by decide, ((updateEditor_dragmode_faces sceneHD inpHD).2.2 (by decide)).1⟩

/-! ## C4: collision resolution along the minimum-penetration axis -/

/-- Writing back the unchanged coordinate (plus the zero movement of a static
body) leaves the vector intact. -/
theorem Vec3.setCoord_coord_self (v : Vec3) (k : Nat) :
    v.setCoord k (v.coord k + 0) = v := by
  rcases v with ⟨x, y, z⟩
  match k with
  | 0 => simp [Vec3.setCoord, Vec3.coord]
  | 1 => simp [Vec3.setCoord, Vec3.coord]
  | 2 => simp [Vec3.setCoord, Vec3.coord]
  | (n + 3) => simp [Vec3.setCoord]

/-- Positive overlap on all three axes makes the (inclusive) box test succeed. -/
theorem checkCollisionBoxes_of_overlaps (a b : BoundingBox)
    (h1 : 0 < min a.max.x b.max.x - max a.min.x b.min.x)
    (h2 : 0 < min a.max.y b.max.y - max a.min.y b.min.y)
    (h3 : 0 < min a.max.z b.max.z - max a.min.z b.min.z) :
    checkCollisionBoxes a b = true := by
  unfold checkCollisionBoxes
  rw [decide_eq_true_eq]
  refine ⟨⟨?_, ?_⟩, ⟨?_, ?_⟩, ⟨?_, ?_⟩⟩
  · linarith [le_max_right a.min.x b.min.x, min_le_left a.max.x b.max.x]
  · linarith [le_max_left a.min.x b.min.x, min_le_right a.max.x b.max.x]
  · linarith [le_max_right a.min.y b.min.y, min_le_left a.max.y b.max.y]
  · linarith [le_max_left a.min.y b.min.y, min_le_right a.max.y b.max.y]
  · linarith [le_max_right a.min.z b.min.z, min_le_left a.max.z b.max.z]
  · linarith [le_max_left a.min.z b.min.z, min_le_right a.max.z b.max.z]

/-- When penetrationAxis reports a non-negative axis, the depth is strictly
positive, the axis is one of 0/1/2 and the two boxes do collide. -/
theorem penetrationAxis_pos (a b : BoundingBox) (d : ℚ) (ax : Int)
    (h : penetrationAxis a b = (d, ax)) (hax : 0 ≤ ax) :
    0 < d ∧ (ax = 0 ∨ ax = 1 ∨ ax = 2) ∧ checkCollisionBoxes a b = true := by
  unfold penetrationAxis at h
  by_cases hov : (min a.max.x b.max.x - max a.min.x b.min.x ≤ 0 ∨
      min a.max.y b.max.y - max a.min.y b.min.y ≤ 0 ∨
      min a.max.z b.max.z - max a.min.z b.min.z ≤ 0)
  · rw [if_pos hov] at h
    obtain ⟨-, h2⟩ := Prod.mk.injEq .. |>.mp h
    omega
  · rw [if_neg hov] at h
    push_neg at hov
    obtain ⟨h1, h2, h3⟩ := hov
    have hcheck := checkCollisionBoxes_of_overlaps a b h1 h2 h3
    dsimp only at h
    by_cases hyx : min a.max.y b.max.y - max a.min.y b.min.y <
        min a.max.x b.max.x - max a.min.x b.min.x
    · rw [if_pos hyx] at h
      by_cases hz : min a.max.z b.max.z - max a.min.z b.min.z <
          min a.max.y b.max.y - max a.min.y b.min.y
      · rw [if_pos hz] at h
        obtain ⟨hd, ha⟩ := Prod.mk.injEq .. |>.mp h
        exact ⟨hd ▸ h3, Or.inr (Or.inr ha.symm), hcheck⟩
      · rw [if_neg hz] at h
        obtain ⟨hd, ha⟩ := Prod.mk.injEq .. |>.mp h
        exact ⟨hd ▸ h2, Or.inr (Or.inl ha.symm), hcheck⟩
    · rw [if_neg hyx] at h
      by_cases hz : min a.max.z b.max.z - max a.min.z b.min.z <
          min a.max.x b.max.x - max a.min.x b.min.x
      · rw [if_pos hz] at h
        obtain ⟨hd, ha⟩ := Prod.mk.injEq .. |>.mp h
        exact ⟨hd ▸ h3, Or.inr (Or.inr ha.symm), hcheck⟩
      · rw [if_neg hz] at h
        obtain ⟨hd, ha⟩ := Prod.mk.injEq .. |>.mp h
        exact ⟨hd ▸ h1, Or.inl ha.symm, hcheck⟩

/-- Arithmetic of the mass-proportional split: the two shares sum to the full
depth and the share proportional to the smaller mass is smaller. -/
theorem massSplit (d mi mj : ℚ) (hd : 0 < d) (hmi : 0 < mi) (hmj : 0 < mj) :
    d * (mj / (mi + mj)) + d * (mi / (mi + mj)) = d ∧
    (mj < mi → d * (mj / (mi + mj)) < d * (mi / (mi + mj))) := by
  have htm : (0 : ℚ) < mi + mj := by linarith
  constructor
  · field_simp
    ring
  · intro hlt
    have hq : mj / (mi + mj) < mi / (mi + mj) := (div_lt_div_iff_of_pos_right htm).mpr hlt
    exact mul_lt_mul_of_pos_left hq hd

/-- C4: for an overlapping pair with positive penetration (axis reported by
penetrationAxis), resolvePair moves the bodies along that single axis only
(all other position and velocity coordinates of both bodies are unchanged);
when both are dynamic each body's displacement is d times the other body's
mass fraction, the two displacements sum to the penetration depth d, the
heavier body moves strictly less, and both bodies' velocity components along
the axis are zeroed; when exactly one body is static the static body is
completely unchanged and the dynamic partner is displaced by the full depth
and has its axis velocity zeroed. -/
theorem resolvePair_spec (bi bj : Body) (d : ℚ) (ax : Int)
    (h : penetrationAxis (bodyAABB bi) (bodyAABB bj) = (d, ax))
    (hax : 0 ≤ ax) (hmi : 0 < bi.Mass) (hmj : 0 < bj.Mass)
    (hns : ¬ (bi.Static = true ∧ bj.Static = true)) :
    0 < d ∧
    (∀ k : Fin 3, (k.val : Int) ≠ ax →
      ((resolvePair bi bj).1.Position.coord k.val = bi.Position.coord k.val ∧
       (resolvePair bi bj).2.Position.coord k.val = bj.Position.coord k.val ∧
       (resolvePair bi bj).1.Velocity.coord k.val = bi.Velocity.coord k.val ∧
       (resolvePair bi bj).2.Velocity.coord k.val = bj.Velocity.coord k.val)) ∧
    (bi.Static = false → bj.Static = false →
      (bi.Position.coord ax.toNat - (resolvePair bi bj).1.Position.coord ax.toNat =
        d * (bj.Mass / (bi.Mass + bj.Mass)) ∧
       (resolvePair bi bj).2.Position.coord ax.toNat - bj.Position.coord ax.toNat =
        d * (bi.Mass / (bi.Mass + bj.Mass)) ∧
       (bi.Position.coord ax.toNat - (resolvePair bi bj).1.Position.coord ax.toNat) +
        ((resolvePair bi bj).2.Position.coord ax.toNat - bj.Position.coord ax.toNat) = d ∧
       (bj.Mass < bi.Mass →
        bi.Position.coord ax.toNat - (resolvePair bi bj).1.Position.coord ax.toNat <
        (resolvePair bi bj).2.Position.coord ax.toNat - bj.Position.coord ax.toNat) ∧
       (resolvePair bi bj).1.Velocity.coord ax.toNat = 0 ∧
       (resolvePair bi bj).2.Velocity.coord ax.toNat = 0)) ∧
    (bi.Static = true → bj.Static = false →
      ((resolvePair bi bj).1 = bi ∧
       (resolvePair bi bj).2.Position.coord ax.toNat = bj.Position.coord ax.toNat + d ∧
       (resolvePair bi bj).2.Velocity.coord ax.toNat = 0)) ∧
    (bi.Static = false → bj.Static = true →
      ((resolvePair bi bj).2 = bj ∧
       (resolvePair bi bj).1.Position.coord ax.toNat = bi.Position.coord ax.toNat - d ∧
       (resolvePair bi bj).1.Velocity.coord ax.toNat = 0)) := by
  obtain ⟨hd, hax3, hcheck⟩ := penetrationAxis_pos _ _ d ax h hax
  have hnn : ¬¬(checkCollisionBoxes (bodyAABB bi) (bodyAABB bj) = true) :=
    not_not_intro hcheck
  have hnlt : ¬ (ax < 0) := not_lt.mpr hax
  refine ⟨hd, ?_, ?_, ?_, ?_⟩
  · intro k hk
    unfold resolvePair
    rw [if_neg hnn]
    dsimp only
    rw [h]
    dsimp only
    rw [if_neg hnlt]
    rcases hax3 with rfl | rfl | rfl <;>
      cases hbi : bi.Static <;> cases hbj : bj.Static <;>
      fin_cases k <;>
      simp_all [Vec3.coord, Vec3.setCoord]
  · intro hbi hbj
    have hms := massSplit d bi.Mass bj.Mass hd hmi hmj
    have ht0 : (0 : Int).toNat = 0 := rfl
    have ht1 : (1 : Int).toNat = 1 := rfl
    have ht2 : (2 : Int).toNat = 2 := rfl
    unfold resolvePair
    rw [if_neg hnn]
    dsimp only
    rw [h]
    dsimp only
    rw [if_neg hnlt]
    rcases hax3 with rfl | rfl | rfl <;>
      · simp only [hbi, hbj, Bool.false_eq_true, if_false, ht0, ht1, ht2,
          Vec3.coord, Vec3.setCoord]
        refine ⟨by ring, by ring, ?_, ?_, by simp [Vec3.coord, Vec3.setCoord],
          by simp [Vec3.coord, Vec3.setCoord]⟩
        · have := hms.1
          ring_nf
          ring_nf at this
          linarith
        · intro hlt
          have := hms.2 hlt
          ring_nf
          ring_nf at this
          linarith
  · intro hbi hbj
    have ht0 : (0 : Int).toNat = 0 := rfl
    have ht1 : (1 : Int).toNat = 1 := rfl
    have ht2 : (2 : Int).toNat = 2 := rfl
    unfold resolvePair
    rw [if_neg hnn]
    dsimp only
    rw [h]
    dsimp only
    rw [if_neg hnlt]
    rcases hax3 with rfl | rfl | rfl <;>
      · simp only [hbi, hbj, Bool.false_eq_true, if_false, if_true, ht0, ht1, ht2]
        refine ⟨?_, by simp [Vec3.coord, Vec3.setCoord],
          by simp [Vec3.coord, Vec3.setCoord]⟩
        rw [Vec3.setCoord_coord_self, ← hbi]
  · intro hbi hbj
    have ht0 : (0 : Int).toNat = 0 := rfl
    have ht1 : (1 : Int).toNat = 1 := rfl
    have ht2 : (2 : Int).toNat = 2 := rfl
    unfold resolvePair
    rw [if_neg hnn]
    dsimp only
    rw [h]
    dsimp only
    rw [if_neg hnlt]
    rcases hax3 with rfl | rfl | rfl <;>
      · simp only [hbi, hbj, Bool.false_eq_true, if_false, if_true, ht0, ht1, ht2]
        refine ⟨?_, by simp [Vec3.coord, Vec3.setCoord, sub_eq_add_neg],
          by simp [Vec3.coord, Vec3.setCoord]⟩
        rw [Vec3.setCoord_coord_self, ← hbj]

/-- Witness for C4: two overlapping dynamic unit cubes (minimum penetration
1/2 on X) have both X velocities zeroed by resolvePair, and the displacements
sum to the depth. -/
theorem resolvePair_spec_witness :
    penetrationAxis (bodyAABB bW1) (bodyAABB bW2) = (1/2, 0) ∧
    (0 : Int) ≤ 0 ∧ 0 < bW1.Mass ∧ 0 < bW2.Mass ∧
    ¬ (bW1.Static = true ∧ bW2.Static = true) ∧
    (resolvePair bW1 bW2).1.Velocity.coord 0 = 0 ∧
    (resolvePair bW1 bW2).2.Velocity.coord 0 = 0 ∧
    (bW1.Position.coord 0 - (resolvePair bW1 bW2).1.Position.coord 0) +
      ((resolvePair bW1 bW2).2.Position.coord 0 - bW2.Position.coord 0) = 1/2 := by
  have hpen : penetrationAxis (bodyAABB bW1) (bodyAABB bW2) = (1/2, 0) := by
    norm_num [penetrationAxis, bodyAABB, bW1, bW2, min_def, max_def]
  have h := resolvePair_spec bW1 bW2 (1/2) 0 hpen (by norm_num)
    (by norm_num [bW1]) (by norm_num [bW2]) (by simp [bW1, bW2])
  have hdyn := h.2.2.1 rfl rfl
  exact ⟨hpen, by norm_num, by norm_num [bW1], by norm_num [bW2],
    by simp [bW1, bW2], hdyn.2.2.2.2.1, hdyn.2.2.2.2.2, hdyn.2.2.1⟩

end GameEngine
